import Mathlib

/-!
Verification of the dreame-mower protocol core against its specification.

The Python source is shallowly embedded: each handler's mutable instance
state becomes a Lean structure, each method becomes a pure function from
state (and input) to a result together with the updated state, and Python
dictionaries become association lists with first-match lookup.  Payload
values arriving from the network are modelled by small inductive types
covering the dynamically-typed cases the handlers branch on.
-/

namespace DreameMower

/-! ## Python dictionary model

Python `dict` with `int` keys: unique-key association list.  `dictGet` is
`d.get(k)`, `dictSet` is `d[k] = v` (replaces the existing binding in
place, else appends), `dictUpdate` is `d.update(u)`. -/

def dictGet {α : Type} (m : List (Int × α)) (k : Int) : Option α :=
  (m.find? (fun p => p.1 == k)).map (·.2)

def dictSet {α : Type} (m : List (Int × α)) (k : Int) (v : α) : List (Int × α) :=
  match m with
  | [] => [(k, v)]
  | (k2, v2) :: rest => if k2 = k then (k, v) :: rest else (k2, v2) :: dictSet rest k v

def dictUpdate {α : Type} (m u : List (Int × α)) : List (Int × α) :=
  u.foldl (fun acc p => dictSet acc p.1 p.2) m

theorem dictGet_cons {α : Type} (k1 : Int) (v1 : α) (tl : List (Int × α)) (k : Int) :
    dictGet ((k1, v1) :: tl) k = if k1 = k then some v1 else dictGet tl k := by
  by_cases h : k1 = k
  · simp [dictGet, List.find?_cons, beq_iff_eq, h]
  · simp [dictGet, List.find?_cons, beq_iff_eq, h]

theorem dictGet_dictSet_self {α : Type} (m : List (Int × α)) (k : Int) (v : α) :
    dictGet (dictSet m k v) k = some v := by
  induction m with
  | nil => simp [dictGet, dictSet]
  | cons hd tl ih =>
    obtain ⟨k2, v2⟩ := hd
    by_cases h : k2 = k
    · simp [dictSet, h, dictGet_cons]
    · rw [dictSet, if_neg h, dictGet_cons, if_neg h]
      exact ih

theorem dictGet_dictSet_ne {α : Type} (m : List (Int × α)) (k k2 : Int) (v : α)
    (h : k2 ≠ k) : dictGet (dictSet m k v) k2 = dictGet m k2 := by
  induction m with
  | nil => simp [dictGet, dictSet, List.find?_cons_of_neg, Ne.symm h]
  | cons hd tl ih =>
    obtain ⟨k3, v3⟩ := hd
    by_cases h3 : k3 = k
    · subst h3
      rw [dictSet, if_pos rfl, dictGet_cons, if_neg (Ne.symm h), dictGet_cons,
        if_neg fun hk => h (hk.symm)]
    · rw [dictSet, if_neg h3, dictGet_cons, dictGet_cons]
      by_cases h4 : k3 = k2
      · simp [h4]
      · rw [if_neg h4, if_neg h4]
        exact ih

theorem dictGet_dictUpdate {α : Type} (m u : List (Int × α)) (k : Int)
    (hu : (u.map Prod.fst).Nodup) :
    dictGet (dictUpdate m u) k = Option.orElse (dictGet u k) (fun _ => dictGet m k) := by
  induction u generalizing m with
  | nil => simp [dictUpdate, dictGet]
  | cons hd tl ih =>
    obtain ⟨k1, v1⟩ := hd
    simp only [List.map_cons, List.nodup_cons] at hu
    have step : dictUpdate m ((k1, v1) :: tl) = dictUpdate (dictSet m k1 v1) tl := rfl
    rw [step, ih (dictSet m k1 v1) hu.2, dictGet_cons]
    by_cases hk : k1 = k
    · subst hk
      have hfind : List.find? (fun p => p.1 == k1) tl = none := by
        rw [List.find?_eq_none]
        intro p hp
        simp only [beq_iff_eq]
        intro hpk
        exact hu.1 (hpk ▸ List.mem_map_of_mem Prod.fst hp)
      have htl : dictGet tl k1 = none := by
        rw [dictGet, hfind]
        rfl
      rw [htl, dictGet_dictSet_self, if_pos rfl]
      rfl
    · rw [dictGet_dictSet_ne m k1 k v1 fun hx => hk hx.symm, if_neg hk]

/-! ## Device codes (`property/device_code.py`)

`DeviceCodeType`, `DeviceCodeDefinition`, `DeviceCodeRegistry`,
`DeviceCodeHandler`, the base and model-specific tables, and
`get_device_code_registry`. -/

inductive DeviceCodeType where
  | INFO
  | WARNING
  | ERROR
  deriving DecidableEq, Repr

structure DeviceCodeDefinition where
  code : Int
  name : String
  description : String
  code_type : DeviceCodeType
  deriving DecidableEq, Repr

def DeviceCodeDefinition.is_error (d : DeviceCodeDefinition) : Bool :=
  d.code_type == DeviceCodeType.ERROR

def DeviceCodeDefinition.is_warning (d : DeviceCodeDefinition) : Bool :=
  d.code_type == DeviceCodeType.WARNING

structure DeviceCodeRegistry where
  codes : List (Int × DeviceCodeDefinition)
  deriving DecidableEq, Repr

/-- `DeviceCodeRegistry.extend`: copy the current codes, `update` with the
additional ones, and build a new registry from the merged dict. -/
def DeviceCodeRegistry.extend (r : DeviceCodeRegistry)
    (additional_codes : List (Int × DeviceCodeDefinition)) : DeviceCodeRegistry :=
  ⟨dictUpdate r.codes additional_codes⟩

def DeviceCodeRegistry.get_code (r : DeviceCodeRegistry) (code : Int) :
    Option DeviceCodeDefinition :=
  dictGet r.codes code

def DeviceCodeRegistry.get_name (r : DeviceCodeRegistry) (code : Int) : String :=
  match r.get_code code with
  | some d => d.name
  | none => "Unknown Code " ++ toString code

def DeviceCodeRegistry.get_description (r : DeviceCodeRegistry) (code : Int) : String :=
  match r.get_code code with
  | some d => d.description
  | none => "Unknown device code: " ++ toString code

def DeviceCodeRegistry.is_error (r : DeviceCodeRegistry) (code : Int) : Bool :=
  match r.get_code code with
  | some d => d.is_error
  | none => false

def DeviceCodeRegistry.is_warning (r : DeviceCodeRegistry) (code : Int) : Bool :=
  match r.get_code code with
  | some d => d.is_warning
  | none => false

def BASE_DEVICE_CODES : List (Int × DeviceCodeDefinition) :=
  [ (0, ⟨0, "NO_DEVICE_CODE", "No device code - normal operation", .INFO⟩),
    (2, ⟨2, "MOWER_GOT_STUCK", "Mower got stuck and cannot continue", .ERROR⟩),
    (9, ⟨9, "BUMPER_ERROR", "Bumper error", .ERROR⟩),
    (18, ⟨18, "ROBOT_IS_OUT_OF_MAP", "Robot is out of map boundaries", .ERROR⟩),
    (19, ⟨19, "ROBOT_IS_LOST", "Robot is lost (or Emergency stop pressed for A1)", .ERROR⟩),
    (21, ⟨21, "ROBOT_STUCK_IN_NO_GO_ZONE", "The robot is stuck in a no-go zone", .ERROR⟩),
    (23, ⟨23, "EMERGENCY_STOP_PRESSED", "Emergency stop button was pressed", .ERROR⟩),
    (24, ⟨24, "BATTERY_IS_LOW_POWERING_OFF", "Battery is low, powering off", .ERROR⟩),
    (27, ⟨27, "POSITIONING_FAILED", "Positioning failed", .ERROR⟩),
    (28, ⟨28, "BLADES_SEVERELY_WORN", "Blades are severely worn. Replace them soon.", .WARNING⟩),
    (31, ⟨31, "FAILED_TO_RETURN_TO_DOCK", "Failed to return to docking station", .ERROR⟩),
    (34, ⟨34, "BATTERY_IS_LOW_RETURNING_TO_DOCK_34", "Battery is low, returning to dock", .INFO⟩),
    (35, ⟨35, "BATTERY_IS_LOW_RETURNING_TO_DOCK_35", "Battery is low, returning to dock", .INFO⟩),
    (43, ⟨43, "CHARGING_PAUSED_BATTERY_TEMP_TOO_LOW", "Charging paused: battery temperature is too low", .WARNING⟩),
    (47, ⟨47, "ROBOT_IS_WORKING_SCHEDULED_TASK_CANCELLED", "Robot is working, scheduled task cancelled", .INFO⟩),
    (48, ⟨48, "MOWING_COMPLETED", "Mowing task completed successfully", .INFO⟩),
    (49, ⟨49, "MOWING_TASK_STARTED", "Mowing task started", .INFO⟩),
    (50, ⟨50, "MOWING_STARTED", "Mowing operation started", .INFO⟩),
    (53, ⟨53, "RAIN_DETECTED", "Rain detected, operation paused", .WARNING⟩),
    (54, ⟨54, "LOW_BATTERY", "Low battery warning", .WARNING⟩),
    (56, ⟨56, "WATER_ON_LIDAR", "Water detected on LiDAR sensor", .WARNING⟩),
    (59, ⟨59, "LID_IS_OPEN", "Device lid is open", .ERROR⟩),
    (61, ⟨61, "DND_START", "Do Not Disturb period started", .INFO⟩),
    (70, ⟨70, "DND_END", "Do Not Disturb period ended", .INFO⟩) ]

def BASE_DEVICE_CODE_REGISTRY : DeviceCodeRegistry := ⟨BASE_DEVICE_CODES⟩

def A1_DEVICE_CODES : List (Int × DeviceCodeDefinition) :=
  [ (19, ⟨19, "EMERGENCY_STOP_PRESSED", "Emergency stop pressed (A1 model specific)", .ERROR⟩),
    (53, ⟨53, "MOWING_STARTED", "Mowing operation started", .INFO⟩),
    (70, ⟨70, "MOWING_RESUMED_AFTER_CHARGING", "Mower resumed mowing after recharge", .INFO⟩),
    (73, ⟨73, "ROBOT_LIFTED", "Robot was lifted", .ERROR⟩) ]

def A1_DEVICE_CODE_REGISTRY : DeviceCodeRegistry :=
  BASE_DEVICE_CODE_REGISTRY.extend A1_DEVICE_CODES

def MOVA_DEVICE_CODES : List (Int × DeviceCodeDefinition) :=
  [ (0, ⟨0, "ROBOT_LIFTED", "Robot lifted", .ERROR⟩),
    (1, ⟨1, "ROBOT_TILTED", "Robot tilted", .ERROR⟩),
    (12, ⟨12, "LIDAR_IS_BLOCKED", "Lidar is blocked", .ERROR⟩),
    (30, ⟨30, "MAINTENANCE_TIME_REACHED", "Robot maintenance time reached. Maintain the robot soon", .WARNING⟩),
    (55, ⟨55, "ROBOT_CANT_START_LOW_BATTERY", "Robot can't start due to low battery", .ERROR⟩),
    (70, ⟨70, "CONTINUE_UNFINISHED_TASK", "Robot will continue the unfinished task", .INFO⟩) ]

def MOVA_DEVICE_CODE_REGISTRY : DeviceCodeRegistry :=
  BASE_DEVICE_CODE_REGISTRY.extend MOVA_DEVICE_CODES

def get_device_code_registry (model : Option String) : DeviceCodeRegistry :=
  match model with
  | none => BASE_DEVICE_CODE_REGISTRY
  | some m =>
    if m = "dreame.mower.p2255" ∨ m = "dreame.mower.g2422" then
      A1_DEVICE_CODE_REGISTRY
    else if m = "mova.mower.g2405b" ∨ m = "mova.mower.g2405c" then
      MOVA_DEVICE_CODE_REGISTRY
    else
      BASE_DEVICE_CODE_REGISTRY

/-- Dynamically-typed value fed to `DeviceCodeHandler.parse_value`; `dcOther`
stands for any Python value on which `int(value)` raises. -/
inductive DCVal where
  | dcInt (n : Int)
  | dcStr (s : String)
  | dcOther
  deriving DecidableEq, Repr

/-- Python `int(value)` on a `DCVal` (`None` means `ValueError` or `TypeError`). -/
def DCVal.intCoerce : DCVal → Option Int
  | .dcInt n => some n
  | .dcStr s => s.toInt?
  | .dcOther => none

structure DeviceCodeHandler where
  device_code : Option Int
  device_code_name : Option String
  device_code_description : Option String
  device_code_is_error : Option Bool
  device_code_is_warning : Option Bool
  registry : DeviceCodeRegistry
  model : Option String
  deriving DecidableEq, Repr

def DeviceCodeHandler.mk_handler (model : Option String) : DeviceCodeHandler :=
  ⟨none, none, none, none, none, get_device_code_registry model, model⟩

def DeviceCodeHandler.set_model (h : DeviceCodeHandler) (model : Option String) :
    DeviceCodeHandler :=
  { h with registry := get_device_code_registry model, model := model }

/-- `DeviceCodeHandler.parse_value`: coerce to int (failure returns `False`
without touching state), look the code up, and update all decoded fields,
falling back to generated placeholders when the code is unmapped. -/
def DeviceCodeHandler.parse_value (h : DeviceCodeHandler) (value : DCVal) :
    Bool × DeviceCodeHandler :=
  match value.intCoerce with
  | none => (false, h)
  | some code =>
    let definition := h.registry.get_code code
    (true,
      { h with
        device_code := some code
        device_code_name := some (match definition with
          | some d => d.name
          | none => "Unknown Code " ++ toString code)
        device_code_description := some (match definition with
          | some d => d.description
          | none => "Unknown device code: " ++ toString code)
        device_code_is_error := some (match definition with
          | some d => d.is_error
          | none => false)
        device_code_is_warning := some (match definition with
          | some d => d.is_warning
          | none => false) })

/-- Claim C7: for every registry `r` and override table `t` (with the unique
keys every Python dict has), `r.extend t` yields a registry in which lookups
for keys in `t` return the override definition and all other keys return the
base definition; `r` itself is a value that `extend` never modifies (the
embedding is pure and `extend` copies into a fresh registry). -/
theorem DeviceCodeRegistry.extend_overrides (r : DeviceCodeRegistry)
    (t : List (Int × DeviceCodeDefinition)) (ht : (t.map Prod.fst).Nodup) (c : Int) :
    (r.extend t).get_code c = Option.orElse (dictGet t c) (fun _ => r.get_code c) := by
  rw [DeviceCodeRegistry.extend, DeviceCodeRegistry.get_code, DeviceCodeRegistry.get_code]
  exact dictGet_dictUpdate r.codes t c ht

/-- Witness for C7 at the A1 override table and code 73. -/
theorem DeviceCodeRegistry.extend_overrides_witness :
    (A1_DEVICE_CODES.map Prod.fst).Nodup ∧
      (BASE_DEVICE_CODE_REGISTRY.extend A1_DEVICE_CODES).get_code 73 =
        Option.orElse (dictGet A1_DEVICE_CODES 73)
          (fun _ => BASE_DEVICE_CODE_REGISTRY.get_code 73) :=
  ⟨by decide,
    DeviceCodeRegistry.extend_overrides BASE_DEVICE_CODE_REGISTRY A1_DEVICE_CODES
      (by decide) 73⟩

/-- Claim C8: for every integer device code absent from the active registry,
`DeviceCodeHandler.parse_value` returns `True` (never raising: the embedding
of the method is total on integer inputs) and resolves the code to the
generated placeholder name containing the code value, the placeholder
description, and neither error nor warning severity. -/
theorem DeviceCodeHandler.parse_value_unknown_code (h : DeviceCodeHandler) (code : Int)
    (habs : h.registry.get_code code = none) :
    h.parse_value (DCVal.dcInt code) =
      (true,
        { h with
          device_code := some code
          device_code_name := some ("Unknown Code " ++ toString code)
          device_code_description := some ("Unknown device code: " ++ toString code)
          device_code_is_error := some false
          device_code_is_warning := some false }) := by
  simp [DeviceCodeHandler.parse_value, DCVal.intCoerce, habs]

/-- Witness for C8: code 999 on the base-model handler. -/
theorem DeviceCodeHandler.parse_value_unknown_code_witness :
    (DeviceCodeHandler.mk_handler none).registry.get_code 999 = none ∧
      (DeviceCodeHandler.mk_handler none).parse_value (DCVal.dcInt 999) =
        (true,
          { DeviceCodeHandler.mk_handler none with
            device_code := some 999
            device_code_name := some ("Unknown Code " ++ toString (999 : Int))
            device_code_description := some ("Unknown device code: " ++ toString (999 : Int))
            device_code_is_error := some false
            device_code_is_warning := some false }) :=
  ⟨by decide,
    DeviceCodeHandler.parse_value_unknown_code (DeviceCodeHandler.mk_handler none) 999
      (by decide)⟩

/-! ## Property 1:1 bit-packed telemetry (`property/property_1_1.py`)

`Property11Handler.parse_value` validates a 20-element array bounded by the
sentinel byte 206 and then assigns the decoded fields one by one. -/

/-- Element of the incoming array. `pother` stands for any Python value on
which `int(e)` raises (`TypeError`/`ValueError`) and which compares unequal
to the integer 206 (e.g. a non-numeric string, `None`, a nested list). -/
inductive PElem where
  | pint (n : Int)
  | pother
  deriving DecidableEq, Repr

/-- Python `int(e)`; `none` models a raised exception. -/
def PElem.intCoerce : PElem → Option Int
  | .pint n => some n
  | .pother => none

/-- Python `e == n` for an integer literal `n` (never raises). -/
def PElem.eqInt (e : PElem) (n : Int) : Bool :=
  match e with
  | .pint m => m == n
  | .pother => false

/-- Value fed to `Property11Handler.parse_value`; `vother` is any non-list. -/
inductive P11Val where
  | vlist (xs : List PElem)
  | vother
  deriving DecidableEq, Repr

structure Property11Handler where
  temperature : Option Rat
  mode : Option Int
  submode : Option Int
  battery_raw : Option Int
  status_flag : Option Int
  phase_marker_hi : Option Int
  phase_marker_lo : Option Int
  aux_code : Option Int
  deriving DecidableEq, Repr

def Property11Handler.init : Property11Handler :=
  ⟨none, none, none, none, none, none, none, none⟩

/-- `Property11Handler.parse_value`: length and sentinel validation, then the
field assignments in source order (p6, p10, p11, p12, p13, p14, p17, p16);
a coercion exception aborts with `False`, keeping fields already assigned. -/
def Property11Handler.parse_value (h : Property11Handler) (value : P11Val) :
    Bool × Property11Handler :=
  match value with
  | .vother => (false, h)
  | .vlist xs =>
    if xs.length = 20 then
      if (xs.getD 0 .pother).eqInt 206 && (xs.getD 19 .pother).eqInt 206 then
        let payload := (xs.drop 1).take 18
        match (payload.getD 6 .pother).intCoerce with
        | none => (false, h)
        | some m =>
          let h := { h with mode := some m }
          match (payload.getD 10 .pother).intCoerce with
          | none => (false, h)
          | some b =>
            let h := { h with battery_raw := some b }
            match (payload.getD 11 .pother).intCoerce with
            | none => (false, h)
            | some hi =>
              let h := { h with phase_marker_hi := some hi }
              match (payload.getD 12 .pother).intCoerce with
              | none => (false, h)
              | some lo =>
                let h := { h with phase_marker_lo := some lo }
                match (payload.getD 13 .pother).intCoerce with
                | none => (false, h)
                | some sub =>
                  let h := { h with submode := some sub }
                  match (payload.getD 14 .pother).intCoerce with
                  | none => (false, h)
                  | some aux =>
                    let h := { h with aux_code := some aux }
                    match (payload.getD 17 .pother).intCoerce with
                    | none => (false, h)
                    | some flag =>
                      let h := { h with status_flag := some flag }
                      match (payload.getD 16 .pother).intCoerce with
                      | none => (false, h)
                      | some traw =>
                        (true, { h with temperature := some ((traw : Rat) / 10) })
      else (false, h)
    else (false, h)

/-- The claim's failure precondition as the code checks it: not a list of 20
elements, or a sentinel mismatch at either end. -/
def P11Val.invalidFrame : P11Val → Bool
  | .vother => true
  | .vlist xs =>
    decide (xs.length ≠ 20) ||
      !((xs.getD 0 .pother).eqInt 206 && (xs.getD 19 .pother).eqInt 206)

/-- Claim C5 (amended): for every input that is not a list of exactly 20
elements, or whose first or last element is not the sentinel 206,
`parse_value` returns `False` and leaves every decoded field untouched. -/
theorem Property11Handler.parse_value_invalid_frame (h : Property11Handler) (v : P11Val)
    (hv : v.invalidFrame = true) : h.parse_value v = (false, h) := by
  cases v with
  | vother => rfl
  | vlist xs =>
    simp only [P11Val.invalidFrame, Bool.or_eq_true, decide_eq_true_eq,
      Bool.not_eq_eq_eq_not, Bool.not_true, Bool.and_eq_false_imp] at hv
    rw [Property11Handler.parse_value]
    rcases hv with hlen | hsent
    · rw [if_neg hlen]
    · by_cases hlen : xs.length = 20
      · rw [if_pos hlen]
        by_cases h0 : (xs.getD 0 .pother).eqInt 206 = true
        · have h19 : (xs.getD 19 .pother).eqInt 206 = false := hsent h0
          rw [if_neg (by rw [h0, h19]; decide)]
        · have h0f : (xs.getD 0 .pother).eqInt 206 = false := by
            revert h0
            cases (xs.getD 0 PElem.pother).eqInt 206 <;> simp
          rw [if_neg (by rw [h0f]; simp)]
      · rw [if_neg hlen]

/-- Witness for C5 at a 19-element array. -/
theorem Property11Handler.parse_value_invalid_frame_witness :
    (P11Val.vlist (List.replicate 19 (PElem.pint 0))).invalidFrame = true ∧
      Property11Handler.init.parse_value (P11Val.vlist (List.replicate 19 (PElem.pint 0))) =
        (false, Property11Handler.init) :=
  ⟨by decide,
    Property11Handler.parse_value_invalid_frame Property11Handler.init
      (P11Val.vlist (List.replicate 19 (PElem.pint 0))) (by decide)⟩

/-- A 20-element frame with valid sentinels whose payload position 10 is a
value on which `int()` raises, while payload position 6 (assigned first) is
the integer 5. -/
def p11PartialInput : P11Val :=
  .vlist [.pint 206, .pint 0, .pint 0, .pint 0, .pint 0, .pint 0, .pint 0, .pint 5,
    .pint 0, .pint 0, .pint 0, .pother, .pint 0, .pint 0, .pint 0, .pint 0,
    .pint 0, .pint 0, .pint 0, .pint 206]

/-- Counterexample to claim C5 as frozen: `p11PartialInput` is not a list of
20 integers (one element is not an integer), yet its first and last elements
are the sentinel 206, so decoding proceeds past validation, assigns `mode`,
and only then fails: `parse_value` returns `False` but the `mode` field has
been modified - a partial decode. -/
theorem Property11Handler.parse_value_partial_decode :
    (Property11Handler.init.parse_value p11PartialInput).1 = false ∧
      (Property11Handler.init.parse_value p11PartialInput).2.mode = some 5 ∧
      (Property11Handler.init.parse_value p11PartialInput).2 ≠ Property11Handler.init := by
  decide

/-! ## Mission completion events (`property/mission_completion.py`)

`MissionCompletionEventHandler._parse_mission_completion_event` resets the
stored fields and then decodes the `piid`/`value` argument pairs one by one;
`charging_event_count` and `total_charging_time_minutes` are derived
read-only views of the stored charging-event pair list. -/

/-- Dynamically-typed argument value: an integer, a string, or a list of
integer lists (the charging-event pair shape). -/
inductive MCVal where
  | mcInt (n : Int)
  | mcStr (s : String)
  | mcPairs (xs : List (List Int))
  deriving DecidableEq, Repr

/-- Python `int(value)`; `none` models a raised exception. -/
def MCVal.intCoerce : MCVal → Option Int
  | .mcInt n => some n
  | .mcStr s => s.toInt?
  | .mcPairs _ => none

/-- Python `float(value)` (exact rational model); `none` models a raised
exception. -/
def MCVal.floatCoerce : MCVal → Option Rat
  | .mcInt n => some (n : Rat)
  | .mcStr s => (s.toInt?).map (fun n => (n : Rat))
  | .mcPairs _ => none

/-- Python `str(value)` (never raises). -/
def MCVal.pyStr : MCVal → String
  | .mcInt n => toString n
  | .mcStr s => s
  | .mcPairs xs => toString xs

/-- Python truthiness of the stored charging-events value. -/
def MCVal.truthy : MCVal → Bool
  | .mcInt n => n != 0
  | .mcStr s => s ≠ ""
  | .mcPairs xs => !xs.isEmpty

/-- One entry of the event's `arguments` list, already carrying the `piid`
and `value` keys (an entry missing either key aborts the parse exactly like
an unknown `piid`, via the surrounding exception handler). -/
structure MCArg where
  piid : Int
  value : MCVal
  deriving DecidableEq, Repr

/-- Notification values handed to `notify_callback`; `fAgg` is the aggregate
`mission_completion_event` record, whose payload is the handler state
itself. -/
inductive MCFieldVal where
  | fInt (n : Int)
  | fRat (q : Rat)
  | fStr (s : String)
  | fAgg
  deriving DecidableEq, Repr

structure MissionCompletionEventHandler where
  progress_percent : Option Int
  duration_minutes : Option Int
  area_sqm : Option Rat
  unknown_field_7 : Option Int
  start_timestamp : Option Int
  data_file_path : Option String
  unknown_field_11 : Option Int
  charging_events : Option MCVal
  unknown_field_14 : Option Int
  unknown_field_15 : Option Int
  unknown_field_60 : Option Int
  start_datetime : Option Int
  data_file_content : Option String
  deriving DecidableEq, Repr

namespace MissionCompletionEventHandler

def init : MissionCompletionEventHandler :=
  ⟨none, none, none, none, none, none, none, none, none, none, none, none, none⟩

/-- `_reset_values`. -/
def resetValues (_st : MissionCompletionEventHandler) : MissionCompletionEventHandler :=
  init

/-- Decode one argument. `false` models a raised (and later caught)
exception; the accompanying state keeps whatever was assigned before the
raise.  For `piid` 8 the timestamp is assigned first and
`datetime.fromtimestamp` then rejects non-numeric values such as numeric
strings. -/
def parseArg (st : MissionCompletionEventHandler) (a : MCArg) :
    Bool × MissionCompletionEventHandler :=
  if a.piid = 1 then
    match a.value.intCoerce with
    | none => (false, st)
    | some n => (true, { st with progress_percent := some n })
  else if a.piid = 2 then
    match a.value.intCoerce with
    | none => (false, st)
    | some n => (true, { st with duration_minutes := some n })
  else if a.piid = 3 then
    match a.value.floatCoerce with
    | none => (false, st)
    | some q => (true, { st with area_sqm := some (q / 100) })
  else if a.piid = 7 then
    match a.value.intCoerce with
    | none => (false, st)
    | some n => (true, { st with unknown_field_7 := some n })
  else if a.piid = 8 then
    match a.value.intCoerce with
    | none => (false, st)
    | some n =>
      match a.value with
      | .mcInt _ => (true, { st with start_timestamp := some n, start_datetime := some n })
      | _ => (false, { st with start_timestamp := some n })
  else if a.piid = 9 then
    (true, { st with data_file_path := some a.value.pyStr })
  else if a.piid = 11 then
    match a.value.intCoerce with
    | none => (false, st)
    | some n => (true, { st with unknown_field_11 := some n })
  else if a.piid = 13 then
    (true, { st with charging_events := some a.value })
  else if a.piid = 14 then
    match a.value.intCoerce with
    | none => (false, st)
    | some n => (true, { st with unknown_field_14 := some n })
  else if a.piid = 15 then
    match a.value.intCoerce with
    | none => (false, st)
    | some n => (true, { st with unknown_field_15 := some n })
  else if a.piid = 60 then
    match a.value.intCoerce with
    | none => (false, st)
    | some n => (true, { st with unknown_field_60 := some n })
  else
    (false, st)

def parseLoop (st : MissionCompletionEventHandler) :
    List MCArg → Bool × MissionCompletionEventHandler
  | [] => (true, st)
  | a :: rest =>
    let r := parseArg st a
    if r.1 then parseLoop r.2 rest else (false, r.2)

/-- Per-field legacy notifications emitted after the aggregate event. -/
def fieldNotifs (st : MissionCompletionEventHandler) : List (String × MCFieldVal) :=
  (match st.progress_percent with
    | some n => [("mission_progress_percent", MCFieldVal.fInt n)]
    | none => []) ++
  (match st.duration_minutes with
    | some n => [("mission_duration_minutes", MCFieldVal.fInt n)]
    | none => []) ++
  (match st.area_sqm with
    | some q => [("mission_area_sqm", MCFieldVal.fRat q)]
    | none => []) ++
  (match st.data_file_path with
    | some s => [("mission_data_file_path", MCFieldVal.fStr s)]
    | none => []) ++
  (match st.start_timestamp with
    | some n => [("mission_start_timestamp", MCFieldVal.fInt n)]
    | none => [])

/-- `_parse_mission_completion_event`: reset, decode every argument, then on
success notify the aggregate event followed by the per-field events. -/
def parseEvent (st : MissionCompletionEventHandler) (arguments : List MCArg) :
    Bool × MissionCompletionEventHandler × List (String × MCFieldVal) :=
  let r := parseLoop (resetValues st) arguments
  if r.1 then
    (true, r.2, ("mission_completion_event", MCFieldVal.fAgg) :: fieldNotifs r.2)
  else
    (false, r.2, [])

/-- `charging_event_count`; `none` models a `len()` raise on a non-sized
stored value. -/
def charging_event_count (st : MissionCompletionEventHandler) : Option Nat :=
  match st.charging_events with
  | none => some 0
  | some v =>
    if v.truthy then
      match v with
      | .mcPairs xs => some xs.length
      | .mcStr s => some s.length
      | .mcInt _ => none
    else some 0

/-- `total_charging_time_minutes`; iterating a non-iterable stored value
raises (`none`), iterating a string yields length-1 items that the
`len(event) >= 2` guard filters out. -/
def total_charging_time_minutes (st : MissionCompletionEventHandler) : Option Int :=
  match st.charging_events with
  | none => some 0
  | some v =>
    if v.truthy then
      match v with
      | .mcPairs xs =>
        some (((xs.filter (fun r => decide (2 ≤ r.length))).map (fun r => r.getD 1 0)).sum)
      | .mcStr _ => some 0
      | .mcInt _ => none
    else some 0

/-- The value of the last `piid`-13 argument in the list, if any. -/
def lastOf13 (args : List MCArg) : Option MCVal :=
  args.foldl (fun acc a => if a.piid = 13 then some a.value else acc) none

theorem parseArg_charging (st : MissionCompletionEventHandler) (a : MCArg) :
    (parseArg st a).2.charging_events =
      if a.piid = 13 then some a.value else st.charging_events := by
  obtain ⟨p, v⟩ := a
  unfold parseArg
  dsimp only
  by_cases h1 : p = 1
  · subst h1
    rw [if_pos rfl, if_neg (by decide)]
    cases v.intCoerce <;> rfl
  rw [if_neg h1]
  by_cases h2 : p = 2
  · subst h2
    rw [if_pos rfl, if_neg (by decide)]
    cases v.intCoerce <;> rfl
  rw [if_neg h2]
  by_cases h3 : p = 3
  · subst h3
    rw [if_pos rfl, if_neg (by decide)]
    cases v.floatCoerce <;> rfl
  rw [if_neg h3]
  by_cases h7 : p = 7
  · subst h7
    rw [if_pos rfl, if_neg (by decide)]
    cases v.intCoerce <;> rfl
  rw [if_neg h7]
  by_cases h8 : p = 8
  · subst h8
    rw [if_pos rfl, if_neg (by decide)]
    cases v.intCoerce
    · rfl
    · cases v <;> rfl
  rw [if_neg h8]
  by_cases h9 : p = 9
  · subst h9
    rw [if_pos rfl, if_neg (by decide)]
  rw [if_neg h9]
  by_cases h11 : p = 11
  · subst h11
    rw [if_pos rfl, if_neg (by decide)]
    cases v.intCoerce <;> rfl
  rw [if_neg h11]
  by_cases h13 : p = 13
  · subst h13
    rw [if_pos rfl, if_pos rfl]
  rw [if_neg h13, if_neg h13]
  by_cases h14 : p = 14
  · subst h14
    rw [if_pos rfl]
    cases v.intCoerce <;> rfl
  rw [if_neg h14]
  by_cases h15 : p = 15
  · subst h15
    rw [if_pos rfl]
    cases v.intCoerce <;> rfl
  rw [if_neg h15]
  by_cases h60 : p = 60
  · subst h60
    rw [if_pos rfl]
    cases v.intCoerce <;> rfl
  rw [if_neg h60]

theorem parseLoop_charging (args : List MCArg) :
    ∀ st : MissionCompletionEventHandler, (parseLoop st args).1 = true →
      (parseLoop st args).2.charging_events =
        args.foldl (fun acc a => if a.piid = 13 then some a.value else acc)
          st.charging_events := by
  induction args with
  | nil => intro st _; rfl
  | cons a rest ih =>
    intro st hok
    rw [parseLoop] at hok ⊢
    by_cases h : (parseArg st a).1 = true
    · rw [if_pos h] at hok ⊢
      rw [ih (parseArg st a).2 hok, List.foldl_cons, parseArg_charging]
    · rw [if_neg h] at hok
      exact absurd hok (by simp)

end MissionCompletionEventHandler

/-- Claim C6: whenever a mission-completion decode succeeds and the last
`piid`-13 argument carries a pair list (each entry holding at least a
timestamp and a duration), the handler's `charging_event_count` equals the
length of that list and `total_charging_time_minutes` equals the exact
integer sum of the per-pair duration entries - independently of the order
and content of the other arguments in the same batch. -/
theorem MissionCompletionEventHandler.charging_stats_correct
    (st0 : MissionCompletionEventHandler) (args : List MCArg) (ps : List (List Int))
    (h13 : MissionCompletionEventHandler.lastOf13 args = some (MCVal.mcPairs ps))
    (hok : (st0.parseEvent args).1 = true)
    (hp : ∀ r ∈ ps, 2 ≤ r.length) :
    MissionCompletionEventHandler.charging_event_count (st0.parseEvent args).2.1 =
        some ps.length ∧
      MissionCompletionEventHandler.total_charging_time_minutes (st0.parseEvent args).2.1 =
        some ((ps.map (fun r => r.getD 1 0)).sum) := by
  have hr : (MissionCompletionEventHandler.parseLoop
      (MissionCompletionEventHandler.resetValues st0) args).1 = true := by
    by_contra hno
    rw [MissionCompletionEventHandler.parseEvent] at hok
    rw [if_neg hno] at hok
    exact absurd hok (by simp)
  have hst : (st0.parseEvent args).2.1 = (MissionCompletionEventHandler.parseLoop
      (MissionCompletionEventHandler.resetValues st0) args).2 := by
    rw [MissionCompletionEventHandler.parseEvent, if_pos hr]
  have hch : ((MissionCompletionEventHandler.parseLoop
      (MissionCompletionEventHandler.resetValues st0) args).2).charging_events =
      some (MCVal.mcPairs ps) := by
    rw [MissionCompletionEventHandler.parseLoop_charging args _ hr]
    exact h13
  constructor
  · rw [hst]
    simp only [MissionCompletionEventHandler.charging_event_count, hch]
    cases ps <;> simp [MCVal.truthy]
  · rw [hst]
    simp only [MissionCompletionEventHandler.total_charging_time_minutes, hch]
    have hfilter : ps.filter (fun r => decide (2 ≤ r.length)) = ps :=
      List.filter_eq_self.mpr (fun r hr2 => by simpa using hp r hr2)
    cases ps with
    | nil => simp [MCVal.truthy]
    | cons q qs =>
      rw [if_pos (by simp [MCVal.truthy])]
      rw [hfilter]

/-- Concrete mission-completion argument batch carrying the spec's two
charging-event pairs among other fields. -/
def c6Args : List MCArg :=
  [⟨8, .mcInt 1759318000⟩,
   ⟨13, .mcPairs [[1759318403, 24], [1759328060, 24]]⟩,
   ⟨1, .mcInt 100⟩]

/-- Witness for C6 at the spec's pair list: count 2 and 48 total minutes. -/
theorem MissionCompletionEventHandler.charging_stats_correct_witness :
    MissionCompletionEventHandler.charging_event_count
        (MissionCompletionEventHandler.init.parseEvent c6Args).2.1 = some 2 ∧
      MissionCompletionEventHandler.total_charging_time_minutes
        (MissionCompletionEventHandler.init.parseEvent c6Args).2.1 = some 48 := by
  have h := MissionCompletionEventHandler.charging_stats_correct
    MissionCompletionEventHandler.init c6Args [[1759318403, 24], [1759328060, 24]]
    (by decide) (by decide) (by decide)
  exact ⟨h.1, h.2⟩

/-! ## Cloud session (`cloud/cloud_base.py`)

`DreameMowerCloudBase.request` in its default non-raising mode: the retry
loop re-authenticates lazily when the key has expired, retries only on
request-level exceptions, and classifies the final outcome (200 success /
401-with-refresh-token re-authentication / plain failure with the rolling
failure counter).  Network behaviour is an oracle: `att i` is the outcome
of the i-th HTTP post, `con j` the outcome of the j-th `connect()` call. -/

structure CBState where
  failCount : Nat
  httpApiConnected : Bool
  loggedIn : Bool
  secondaryKey : Bool
  keyExpireSet : Bool
  keyExpired : Bool
  deriving DecidableEq, Repr

/-- The public `connected` predicate: logged in and HTTP API accessible. -/
def CBState.connected (s : CBState) : Bool := s.loggedIn && s.httpApiConnected

/-- Effect of one `connect()` call with outcome `ok`: it first clears the
logged-in flag, and on success stores fresh keys (so the key is no longer
expired), marks logged-in, resets the failure counter and marks the HTTP
API reachable. -/
def connectStep (s : CBState) (ok : Bool) : CBState :=
  if ok then
    { s with
      loggedIn := true
      failCount := 0
      httpApiConnected := true
      keyExpireSet := true
      keyExpired := false }
  else
    { s with loggedIn := false }

/-- Outcome of one HTTP post: a request-level exception or a response with
the given status code. -/
inductive HttpAttempt where
  | exc
  | resp (status : Nat)

/-- The `while retries < retry_count + 1` loop of `request`: each iteration
lazily re-authenticates if the key has expired, then posts; an exception
consumes one retry, a response ends the loop.  Returns the response status
(if any), the state, and the next connect-oracle index (= number of
`connect()` calls made so far). -/
def requestLoop (att : Nat → HttpAttempt) (con : Nat → Bool) :
    Nat → Nat → Nat → CBState → Option Nat × CBState × Nat
  | 0, _, c, s => (none, s, c)
  | fuel + 1, a, c, s =>
    let sc : CBState × Nat := if s.keyExpired then (connectStep s (con c), c + 1) else (s, c)
    match att a with
    | .resp status => (some status, sc.1, sc.2)
    | .exc => requestLoop att con fuel (a + 1) sc.2 sc.1

/-- The failure epilogue of `request` (default non-raising mode): log,
flip the reachable flag off when the counter already reads 5, else bump the
counter, and return `None`. -/
def failUpdate (s : CBState) : CBState :=
  if s.failCount = 5 then { s with httpApiConnected := false }
  else { s with failCount := s.failCount + 1 }

/-- `DreameMowerCloudBase.request` (default `raise_on_error=False`).
Result: `some ()` for a parsed 200 response, `none` otherwise; plus the
final state and the total number of `connect()` calls the request made. -/
def request (s : CBState) (att : Nat → HttpAttempt) (con : Nat → Bool)
    (retry_count : Nat) : Option Unit × CBState × Nat :=
  let r := requestLoop att con (retry_count + 1) 0 0 s
  match r.1 with
  | some status =>
    if status = 200 then
      (some (), { r.2.1 with failCount := 0, httpApiConnected := true }, r.2.2)
    else if status = 401 ∧ r.2.1.secondaryKey = true then
      (none, failUpdate (connectStep r.2.1 (con r.2.2)), r.2.2 + 1)
    else
      (none, failUpdate r.2.1, r.2.2)
  | none => (none, failUpdate r.2.1, r.2.2)

/-- The first response the attempt oracle produces within the retry budget. -/
def firstResp (att : Nat → HttpAttempt) : Nat → Nat → Option Nat
  | 0, _ => none
  | fuel + 1, a =>
    match att a with
    | .resp status => some status
    | .exc => firstResp att fuel (a + 1)

theorem requestLoop_no_expiry (att : Nat → HttpAttempt) (con : Nat → Bool)
    (fuel : Nat) : ∀ (a c : Nat) (s : CBState), s.keyExpired = false →
    requestLoop att con fuel a c s = (firstResp att fuel a, s, c) := by
  induction fuel with
  | zero => intro a c s _; rfl
  | succ n ih =>
    intro a c s hkey
    rw [requestLoop, firstResp]
    rw [if_neg (by rw [hkey]; simp)]
    cases att a with
    | resp status => rfl
    | exc => exact ih (a + 1) c s hkey

/-- One network environment for a single `request` call. -/
structure ReqEnv where
  att : Nat → HttpAttempt
  con : Nat → Bool
  retry_count : Nat

def runRequest (s : CBState) (e : ReqEnv) : Option Unit × CBState × Nat :=
  request s e.att e.con e.retry_count

def runRequests (s : CBState) : List ReqEnv → CBState
  | [] => s
  | e :: rest => runRequests (runRequest s e).2.1 rest

/-- A "plain" failed request: no response at all, or a non-200 response
that does not enter the 401 re-authentication branch (given whether a
refresh token is present). -/
def isPlainFailure (sk : Bool) (e : ReqEnv) : Prop :=
  match firstResp e.att (e.retry_count + 1) 0 with
  | none => True
  | some st => st ≠ 200 ∧ (st = 401 → sk = false)

theorem runRequest_plainFailure (s : CBState) (e : ReqEnv)
    (hkey : s.keyExpired = false) (hfail : isPlainFailure s.secondaryKey e) :
    runRequest s e = (none, failUpdate s, 0) := by
  rw [runRequest, request, requestLoop_no_expiry e.att e.con (e.retry_count + 1) 0 0 s hkey]
  rw [isPlainFailure] at hfail
  cases hr : firstResp e.att (e.retry_count + 1) 0 with
  | none => rfl
  | some st =>
    rw [hr] at hfail
    obtain ⟨h200, h401⟩ := hfail
    dsimp only
    rw [if_neg h200, if_neg ?_]
    intro hc
    rw [h401 hc.1] at hc
    exact absurd hc.2 (by simp)

theorem failUpdate_keyExpired (s : CBState) : (failUpdate s).keyExpired = s.keyExpired := by
  rw [failUpdate]; split <;> rfl

theorem failUpdate_secondaryKey (s : CBState) :
    (failUpdate s).secondaryKey = s.secondaryKey := by
  rw [failUpdate]; split <;> rfl

theorem failUpdate_loggedIn (s : CBState) : (failUpdate s).loggedIn = s.loggedIn := by
  rw [failUpdate]; split <;> rfl

theorem failUpdate_fields (t : CBState) (n : Nat) (hn : t.failCount = n) (hne : n ≠ 5) :
    (failUpdate t).failCount = n + 1 ∧
      (failUpdate t).httpApiConnected = t.httpApiConnected := by
  rw [failUpdate, if_neg (by rw [hn]; exact hne)]
  exact ⟨by rw [hn], rfl⟩

theorem runRequest_success (t : CBState) (e : ReqEnv) (hk : t.keyExpired = false)
    (h200 : firstResp e.att (e.retry_count + 1) 0 = some 200) :
    (runRequest t e).2.1 = { t with failCount := 0, httpApiConnected := true } := by
  rw [runRequest, request, requestLoop_no_expiry e.att e.con (e.retry_count + 1) 0 0 t hk,
    h200]
  dsimp only
  rw [if_pos rfl]

/-- Claim C2 (amended): starting from failure count zero (authenticated,
HTTP API marked reachable, key not expired), five consecutive plain request
failures leave `connected` still true; the flag flips only at the end of a
sixth consecutive failure (the counter reaches 5 and only a later failure
observes it); and any single subsequent successful request restores
`connected`. -/
theorem CBState.connected_after_failures (s : CBState) (e1 e2 e3 e4 e5 e6 es : ReqEnv)
    (h0 : s.failCount = 0) (hkey : s.keyExpired = false)
    (hlog : s.loggedIn = true) (hconn : s.httpApiConnected = true)
    (hf1 : isPlainFailure s.secondaryKey e1) (hf2 : isPlainFailure s.secondaryKey e2)
    (hf3 : isPlainFailure s.secondaryKey e3) (hf4 : isPlainFailure s.secondaryKey e4)
    (hf5 : isPlainFailure s.secondaryKey e5) (hf6 : isPlainFailure s.secondaryKey e6)
    (hsucc : firstResp es.att (es.retry_count + 1) 0 = some 200) :
    (runRequests s [e1, e2, e3, e4, e5]).connected = true ∧
      (runRequests s [e1, e2, e3, e4, e5, e6]).connected = false ∧
      ((runRequest (runRequests s [e1, e2, e3, e4, e5, e6]) es).2.1).connected = true := by
  have keyF : ∀ t : CBState, t.keyExpired = false → (failUpdate t).keyExpired = false :=
    fun t h => by rw [failUpdate_keyExpired, h]
  have skF : ∀ t : CBState, t.secondaryKey = s.secondaryKey →
      (failUpdate t).secondaryKey = s.secondaryKey :=
    fun t h => by rw [failUpdate_secondaryKey, h]
  have logF : ∀ t : CBState, t.loggedIn = true → (failUpdate t).loggedIn = true :=
    fun t h => by rw [failUpdate_loggedIn, h]
  have k1 := keyF s hkey
  have k2 := keyF _ k1
  have k3 := keyF _ k2
  have k4 := keyF _ k3
  have k5 := keyF _ k4
  have k6 := keyF _ k5
  have q1 := skF s rfl
  have q2 := skF _ q1
  have q3 := skF _ q2
  have q4 := skF _ q3
  have q5 := skF _ q4
  have l1 := logF s hlog
  have l2 := logF _ l1
  have l3 := logF _ l2
  have l4 := logF _ l3
  have l5 := logF _ l4
  have l6 := logF _ l5
  have a1 := failUpdate_fields s 0 h0 (by decide)
  have a2 := failUpdate_fields _ 1 a1.1 (by decide)
  have a3 := failUpdate_fields _ 2 a2.1 (by decide)
  have a4 := failUpdate_fields _ 3 a3.1 (by decide)
  have a5 := failUpdate_fields _ 4 a4.1 (by decide)
  have step : ∀ (t : CBState) (e : ReqEnv), t.keyExpired = false →
      t.secondaryKey = s.secondaryKey → isPlainFailure s.secondaryKey e →
      (runRequest t e).2.1 = failUpdate t := by
    intro t e hk hq hf
    rw [runRequest_plainFailure t e hk (by rw [hq]; exact hf)]
  have hchain5 : runRequests s [e1, e2, e3, e4, e5] =
      failUpdate (failUpdate (failUpdate (failUpdate (failUpdate s)))) := by
    simp only [runRequests]
    rw [step s e1 hkey rfl hf1, step _ e2 k1 q1 hf2, step _ e3 k2 q2 hf3,
      step _ e4 k3 q3 hf4, step _ e5 k4 q4 hf5]
  have hchain6 : runRequests s [e1, e2, e3, e4, e5, e6] =
      failUpdate (failUpdate (failUpdate (failUpdate (failUpdate (failUpdate s))))) := by
    simp only [runRequests]
    rw [step s e1 hkey rfl hf1, step _ e2 k1 q1 hf2, step _ e3 k2 q2 hf3,
      step _ e4 k3 q3 hf4, step _ e5 k4 q4 hf5, step _ e6 k5 q5 hf6]
  have hflip : failUpdate (failUpdate (failUpdate (failUpdate (failUpdate (failUpdate s))))) =
      { failUpdate (failUpdate (failUpdate (failUpdate (failUpdate s)))) with
        httpApiConnected := false } := by
    rw [failUpdate, if_pos a5.1]
  refine ⟨?_, ?_, ?_⟩
  · rw [hchain5, CBState.connected, l5, a5.2, a4.2, a3.2, a2.2, a1.2, hconn]
    rfl
  · rw [hchain6, hflip, CBState.connected]
    dsimp only
    rw [l5]
    rfl
  · rw [runRequest_success _ es (by rw [hchain6]; exact k6) hsucc, CBState.connected]
    have hl : (runRequests s [e1, e2, e3, e4, e5, e6]).loggedIn = true := by
      rw [hchain6]; exact l6
    dsimp only
    rw [hl]
    rfl

/-- A cloud session state right after a successful login. -/
def cbConnectedState : CBState :=
  { failCount := 0, httpApiConnected := true, loggedIn := true,
    secondaryKey := true, keyExpireSet := true, keyExpired := false }

/-- A request environment whose every post yields an HTTP 500 response. -/
def cbFailEnv : ReqEnv := ⟨fun _ => .resp 500, fun _ => false, 2⟩

/-- A request environment whose every post yields an HTTP 200 response. -/
def cbSuccEnv : ReqEnv := ⟨fun _ => .resp 200, fun _ => false, 2⟩

/-- Counterexample to claim C2 as frozen: starting from a freshly connected
session (failure count zero), five consecutive failed requests (HTTP 500)
leave `connected` still true; it only becomes false after a sixth
consecutive failure, because `request` checks `fail_count == 5` before
incrementing the counter. -/
theorem CBState.five_failures_still_connected :
    (runRequests cbConnectedState
        [cbFailEnv, cbFailEnv, cbFailEnv, cbFailEnv, cbFailEnv]).connected = true ∧
      (runRequests cbConnectedState
        [cbFailEnv, cbFailEnv, cbFailEnv, cbFailEnv, cbFailEnv, cbFailEnv]).connected =
        false := ⟨rfl, rfl⟩

/-- Witness for C2 (amended) at the concrete 500-failure environment. -/
theorem CBState.connected_after_failures_witness :
    (runRequests cbConnectedState
        [cbFailEnv, cbFailEnv, cbFailEnv, cbFailEnv, cbFailEnv]).connected = true ∧
      (runRequests cbConnectedState
        [cbFailEnv, cbFailEnv, cbFailEnv, cbFailEnv, cbFailEnv, cbFailEnv]).connected =
          false ∧
      ((runRequest (runRequests cbConnectedState
        [cbFailEnv, cbFailEnv, cbFailEnv, cbFailEnv, cbFailEnv, cbFailEnv])
        cbSuccEnv).2.1).connected = true := by
  have hpf : isPlainFailure cbConnectedState.secondaryKey cbFailEnv :=
    show (500 : Nat) ≠ 200 ∧ ((500 : Nat) = 401 → true = false) from ⟨by decide, by decide⟩
  exact CBState.connected_after_failures cbConnectedState
    cbFailEnv cbFailEnv cbFailEnv cbFailEnv cbFailEnv cbFailEnv cbSuccEnv
    rfl rfl rfl rfl hpf hpf hpf hpf hpf hpf rfl

/-- Claim C4 (amended): for a request whose HTTP response has status 401
while a refresh token is present and whose bearer token had not expired
before the exchange, exactly one re-authentication attempt (one `connect()`
call) is triggered by that request, and the failed call returns `None` in
the default non-raising mode. -/
theorem request_401_single_reauth (s : CBState) (att : Nat → HttpAttempt)
    (con : Nat → Bool) (retry_count : Nat)
    (hkey : s.keyExpired = false) (hsk : s.secondaryKey = true)
    (h401 : firstResp att (retry_count + 1) 0 = some 401) :
    (request s att con retry_count).1 = none ∧
      (request s att con retry_count).2.2 = 1 := by
  rw [request, requestLoop_no_expiry att con (retry_count + 1) 0 0 s hkey, h401]
  dsimp only
  rw [if_neg (by decide), if_pos ⟨rfl, hsk⟩]
  exact ⟨rfl, rfl⟩

/-- Witness for C4 at a concrete always-401 environment. -/
theorem request_401_single_reauth_witness :
    firstResp (fun _ => HttpAttempt.resp 401) (2 + 1) 0 = some 401 ∧
      (request cbConnectedState (fun _ => HttpAttempt.resp 401) (fun _ => true) 2).1 =
          none ∧
      (request cbConnectedState (fun _ => HttpAttempt.resp 401) (fun _ => true) 2).2.2 =
        1 :=
  ⟨rfl,
    request_401_single_reauth cbConnectedState (fun _ => HttpAttempt.resp 401)
      (fun _ => true) 2 rfl rfl rfl⟩

/-- Counterexample to claim C4 as frozen: when the bearer token has already
expired, the same 401 request performs a lazy re-authentication inside the
retry loop and a second one in the 401 branch - two `connect()` calls, not
exactly one. -/
theorem request_401_expired_double_reauth :
    (request { cbConnectedState with keyExpired := true }
        (fun _ => HttpAttempt.resp 401) (fun _ => true) 2).2.2 = 2 ∧
      (request { cbConnectedState with keyExpired := true }
        (fun _ => HttpAttempt.resp 401) (fun _ => true) 2).1 = none :=
  ⟨rfl, rfl⟩

/-! ## Cloud device (`cloud/cloud_device.py`)

`DreameMowerCloudDevice`: instance state, the `send` response
classification, the MQTT connect/disconnect/message callbacks, the
reconnect-timer task, `connect` and `disconnect`.  External effects
(network, the paho client, timers) appear as Boolean oracles; the composed
`DreameMowerCloudBase` is the `CBState` model above, with its bearer key
abstracted as `cloudKey`. -/

structure DevState where
  device_id : String
  host : Option String
  model : Option String
  uid : Option String
  mqtt_client : Bool
  mqtt_client_connected : Bool
  mqtt_client_connecting : Bool
  mqtt_reconnect_timer : Bool
  message_callback : Bool
  connected_callback : Bool
  disconnected_callback : Bool
  mqtt_client_key : Option Int
  device_reachable : Bool
  cloud : CBState
  cloudKey : Option Int
  reqId : Int
  deriving DecidableEq, Repr

namespace DevState

/-- `__init__`: fresh device state over a fresh cloud base. -/
def init (device_id : String) : DevState :=
  { device_id := device_id
    host := none
    model := none
    uid := none
    mqtt_client := false
    mqtt_client_connected := false
    mqtt_client_connecting := false
    mqtt_reconnect_timer := false
    message_callback := false
    connected_callback := false
    disconnected_callback := false
    mqtt_client_key := none
    device_reachable := true
    cloud := { failCount := 0, httpApiConnected := false, loggedIn := false,
               secondaryKey := false, keyExpireSet := false, keyExpired := false }
    cloudKey := none
    reqId := 17 }

def connected (d : DevState) : Bool := d.cloud.connected && d.mqtt_client_connected

/-- `_refresh_mqtt_credentials`: update the client credentials when the
session key changed; returns whether anything changed. -/
def refreshCreds (d : DevState) : Bool × DevState :=
  if d.mqtt_client_key ≠ d.cloudKey ∧ d.mqtt_client = true then
    (true, { d with mqtt_client_key := d.cloudKey })
  else (false, d)

/-- `self._cloud_base.connect()` seen from the device: oracle `ok` for the
login outcome, `newKey` for the freshly stored bearer key. -/
def cloudConnect (d : DevState) (ok : Bool) (newKey : Option Int) : DevState :=
  if ok then { d with cloud := connectStep d.cloud true, cloudKey := newKey }
  else { d with cloud := connectStep d.cloud false }

/-- The credential-recovery block of `_on_mqtt_client_disconnect`: refresh;
if nothing changed and the reason is rc 5 with a key-expiry instant stored,
re-login and refresh again. -/
def reauthOnDisconnect (d : DevState) (rc : Int) (connectOk : Bool)
    (newKey : Option Int) : DevState :=
  let r := refreshCreds d
  if r.1 then r.2
  else if rc = 5 ∧ d.cloud.keyExpireSet then
    (refreshCreds (cloudConnect d connectOk newKey)).2
  else d

/-- The reconnect block of `_on_mqtt_client_disconnect`: bail out without a
client, attempt one immediate reconnect (marking connecting), and (re)arm
the fixed-delay timer while not connected. -/
def reconnectPhase (d : DevState) : DevState :=
  if ¬ d.mqtt_client then d
  else
    let d1 := if ¬ d.mqtt_client_connecting then
        { d with mqtt_client_connecting := true } else d
    if ¬ d1.mqtt_client_connected then { d1 with mqtt_reconnect_timer := true } else d1

/-- `_on_mqtt_client_disconnect`: returns the new state and whether the
disconnected-callback was invoked. -/
def onMqttDisconnect (d : DevState) (rc : Int) (connectOk : Bool)
    (newKey : Option Int) : DevState × Bool :=
  let was := d.mqtt_client_connected
  let d1 := { d with mqtt_client_connected := false }
  let invoked := was && d1.disconnected_callback
  if rc = 0 then (d1, invoked)
  else (reconnectPhase (reauthOnDisconnect d1 rc connectOk newKey), invoked)

/-- `_on_mqtt_client_connect`: returns the new state and whether the
connected-callback was invoked. -/
def onMqttConnect (d : DevState) (rc : Int) : DevState × Bool :=
  let d1 := { d with mqtt_client_connecting := false, mqtt_reconnect_timer := false }
  if rc = 0 then
    let d2 := if ¬ d1.mqtt_client_connected then
        { d1 with mqtt_client_connected := true } else d1
    (d2, d2.connected_callback)
  else
    let r := refreshCreds d1
    if r.1 then (r.2, false) else ({ r.2 with mqtt_client_connected := false }, false)

/-- `_on_mqtt_client_message`: mark the device reachable, then hand the
inner `data` payload to the message callback when the JSON parses and
carries one.  Returns the new state and whether the callback ran. -/
def onMqttMessage (d : DevState) (wellFormed hasData : Bool) : DevState × Bool :=
  let d1 := { d with device_reachable := true }
  if d1.message_callback then
    if wellFormed ∧ hasData then (d1, true) else (d1, false)
  else (d1, false)

/-- `_mqtt_reconnect_timer_task`: cancel the pending timer, no-op without a
client or when already connected, else mark connecting and attempt a
reconnect, re-arming the timer when the attempt raises. -/
def mqttReconnectTimerTask (d : DevState) (reconnectRaises : Bool) : DevState :=
  let d1 := { d with mqtt_reconnect_timer := false }
  if ¬ d1.mqtt_client then d1
  else if d1.mqtt_client_connected then d1
  else
    let d2 := if ¬ d1.mqtt_client_connecting then
        { d1 with mqtt_client_connecting := true } else d1
    if reconnectRaises then { d2 with mqtt_reconnect_timer := true } else d2

/-- `disconnect`: tear down the client, clear callbacks, delegate to the
cloud base (which drops both halves of its `connected` predicate). -/
def disconnectDev (d : DevState) : DevState :=
  let d1 := if d.mqtt_client then
      { d with
        mqtt_client := false
        mqtt_client_connected := false
        mqtt_client_connecting := false }
    else d
  let d2 := { d1 with
    message_callback := false
    connected_callback := false
    disconnected_callback := false }
  { d2 with cloud := { d2.cloud with httpApiConnected := false, loggedIn := false } }

end DevState

/-- The `"result"`-bearing inner `data` object of a vendor response. -/
structure RData where
  result : Option Int
  deriving DecidableEq, Repr

/-- A parsed vendor JSON response: the `code`, `msg` and `data` keys, each
possibly absent. -/
structure ApiResponse where
  code : Option Int
  msg : Option String
  data : Option RData
  deriving DecidableEq, Repr

/-- Python truthiness of the response dict (responses carrying only keys
outside this model behave identically to the empty dict in `send`). -/
def ApiResponse.truthy (r : ApiResponse) : Bool :=
  r.code.isSome || r.msg.isSome || r.data.isSome

/-- The three error classes `send` can raise: `TimeoutError` for vendor
code 80001, `RuntimeError` for any other non-zero vendor code, and
`ConnectionError` when no response was obtained at all. -/
inductive SendErr where
  | timeout (msg : String)
  | remote (code : Int) (msg : String)
  | connectivity
  deriving DecidableEq, Repr

/-- `DreameMowerCloudDevice.send`, classified over the `_api_call` outcome
(the HTTP bookkeeping itself is the `request` model above and never touches
this state): increment the per-session request id, then classify. -/
def DevState.send (d : DevState) (api_response : Option ApiResponse) :
    Except SendErr (Option Int) × DevState :=
  let d1 := { d with reqId := d.reqId + 1 }
  match api_response with
  | some r =>
    if r.truthy ∧ r.code = some 80001 then
      (.error (.timeout (r.msg.getD "Device may be offline and command sending timed out")),
        { d1 with device_reachable := false })
    else if r.truthy ∧ r.code.getD 0 ≠ 0 then
      (.error (.remote (r.code.getD 0)
          (r.msg.getD ("Unknown error code: " ++ toString (r.code.getD 0)))), d1)
    else
      let d2 := { d1 with device_reachable := true }
      match r.data with
      | none => (.ok none, d2)
      | some rd =>
        match rd.result with
        | none => (.ok none, d2)
        | some v => (.ok (some v), d2)
  | none => (.error .connectivity, d1)

/-- Result of `DreameMowerCloudDevice.connect`: the missing-callback
`ValueError`, success (`True`) or failure (`False`). -/
inductive ConnectOutcome where
  | raised
  | ok
  | failed
  deriving DecidableEq, Repr

/-- `DreameMowerCloudDevice.connect` plus `_initialize_mqtt_connection_state`
(the device-info fetch appears as the `infoOk`/`newUid`/`newDid`/`newModel`/
`newHost` oracle, host parsing as `hostValid`, client-library effects as the
`connectRaises`/`reconnectRaises` oracles appear further below).

Register the three supplied callbacks. -/
def DevState.setCallbacks (d : DevState) (mcb ccb dcb : Bool) : DevState :=
  { d with
    message_callback := mcb
    connected_callback := ccb
    disconnected_callback := dcb }

/-- Populate uid, device id, model and MQTT host from the base device-info
response (`_initialize_mqtt_connection_state`, tail). -/
def DevState.applyDeviceInfo (d : DevState) (u di mo ho : String) : DevState :=
  { d with
    uid := some u
    device_id := di
    model := some mo
    host := some ho }

/-- Ensure the cloud base is connected (`_initialize_mqtt_connection_state`,
head). -/
def DevState.ensureCloud (d : DevState) (cloudOk : Bool) (newKey : Option Int) :
    DevState :=
  if ¬ d.cloud.connected then d.cloudConnect cloudOk newKey else d

/-- `connect` when an MQTT client object already exists: refresh credentials
and kick a reconnect if idle, arming the delayed retry when the immediate
attempt raises. -/
def DevState.reconnectExisting (d : DevState) (reconnectRaises : Bool) : DevState :=
  let d4 := (d.refreshCreds).2
  if ¬ d4.mqtt_client_connected ∧ ¬ d4.mqtt_client_connecting then
    let d5 := { d4 with mqtt_client_connecting := true }
    if reconnectRaises then { d5 with mqtt_reconnect_timer := true } else d5
  else d4

/-- `connect` when no client exists yet: validate the host, create the
client, refresh credentials, and issue the initial broker connect. -/
def DevState.createClient (d : DevState) (hostValid connectRaises : Bool) :
    ConnectOutcome × DevState :=
  if ¬ hostValid then (.failed, d)
  else
    let d4 := { d with mqtt_client := true }
    let d5 := (d4.refreshCreds).2
    if connectRaises then (.failed, d5) else (.ok, d5)

def DevState.connectDev (d : DevState) (mcb ccb dcb : Bool)
    (cloudOk : Bool) (newKey : Option Int)
    (infoOk : Bool) (newUid newDid newModel newHost : String) (hostValid : Bool)
    (connectRaises reconnectRaises : Bool) : ConnectOutcome × DevState :=
  if ¬ (mcb ∧ ccb ∧ dcb) then (.raised, d)
  else if d.connected then (.ok, d.setCallbacks mcb ccb dcb)
  else
    let d1 := d.ensureCloud cloudOk newKey
    if ¬ d1.cloud.connected then (.failed, d1)
    else if ¬ infoOk then (.failed, d1)
    else
      let d3 := (d1.applyDeviceInfo newUid newDid newModel newHost).setCallbacks
        mcb ccb dcb
      if d3.mqtt_client then (.ok, d3.reconnectExisting reconnectRaises)
      else d3.createClient hostValid connectRaises

theorem refreshCreds_conn (d : DevState) :
    (d.refreshCreds).2.mqtt_client_connected = d.mqtt_client_connected := by
  rw [DevState.refreshCreds]; split <;> rfl

theorem cloudConnect_conn (d : DevState) (ok : Bool) (nk : Option Int) :
    (d.cloudConnect ok nk).mqtt_client_connected = d.mqtt_client_connected := by
  rw [DevState.cloudConnect]; split <;> rfl

theorem reauthOnDisconnect_conn (d : DevState) (rc : Int) (ok : Bool) (nk : Option Int) :
    (d.reauthOnDisconnect rc ok nk).mqtt_client_connected = d.mqtt_client_connected := by
  rw [DevState.reauthOnDisconnect]
  split_ifs
  · rw [refreshCreds_conn]
  · rw [refreshCreds_conn, cloudConnect_conn]
  · rfl

theorem reconnectPhase_conn (d : DevState) :
    (d.reconnectPhase).mqtt_client_connected = d.mqtt_client_connected := by
  rw [DevState.reconnectPhase]
  dsimp only
  split_ifs <;> rfl

theorem onMqttDisconnect_invoked (d : DevState) (rc : Int) (ok : Bool) (nk : Option Int) :
    (d.onMqttDisconnect rc ok nk).2 = true → d.mqtt_client_connected = true := by
  rw [DevState.onMqttDisconnect]
  dsimp only
  split <;> (intro h; rw [Bool.and_eq_true] at h; exact h.1)

theorem onMqttDisconnect_not_connected (d : DevState) (rc : Int) (ok : Bool)
    (nk : Option Int) :
    ((d.onMqttDisconnect rc ok nk).1).mqtt_client_connected = false := by
  rw [DevState.onMqttDisconnect]
  dsimp only
  split
  · rfl
  · rw [reconnectPhase_conn, reauthOnDisconnect_conn]

/-- Claim C9: the disconnected-callback is invoked only on a transport
disconnect signal whose previous state was Connected, and on two
back-to-back disconnect signals the second one never invokes it (so while
already disconnected it fires at most once). -/
theorem DevState.disconnect_callback_edge (d : DevState) (rc1 rc2 : Int)
    (ok1 ok2 : Bool) (nk1 nk2 : Option Int) :
    ((d.onMqttDisconnect rc1 ok1 nk1).2 = true → d.mqtt_client_connected = true) ∧
      ((d.onMqttDisconnect rc1 ok1 nk1).1.onMqttDisconnect rc2 ok2 nk2).2 = false := by
  constructor
  · exact onMqttDisconnect_invoked d rc1 ok1 nk1
  · have h := onMqttDisconnect_not_connected d rc1 ok1 nk1
    rw [DevState.onMqttDisconnect]
    dsimp only
    split <;> (rw [h]; rfl)

/-- A connected device with all callbacks registered. -/
def devConnectedState : DevState :=
  { DevState.init "device7" with
    mqtt_client := true
    mqtt_client_connected := true
    message_callback := true
    connected_callback := true
    disconnected_callback := true }

/-- Witness for C9: a connected device gets the callback on the first
unexpected disconnect signal and never on the second. -/
theorem DevState.disconnect_callback_edge_witness :
    (devConnectedState.onMqttDisconnect 1 false none).2 = true ∧
      devConnectedState.mqtt_client_connected = true ∧
      ((devConnectedState.onMqttDisconnect 1 false none).1.onMqttDisconnect 1
        false none).2 = false :=
  ⟨by decide,
    (DevState.disconnect_callback_edge devConnectedState 1 1 false false none none).1
      (by decide),
    (DevState.disconnect_callback_edge devConnectedState 1 1 false false none none).2⟩

/-- Claim C3: `send` raises a timeout-class error on vendor code 80001, a
generic remote error carrying code and message on any other non-zero code,
a distinct connectivity error when no response was obtained, and returns
`None` as a valid no-op success on a zero-code response with no
data/result payload. -/
theorem DevState.send_classification (d : DevState) (resp : Option ApiResponse) :
    (∀ r, resp = some r → r.code = some 80001 →
      (d.send resp).1 = .error (.timeout
        (r.msg.getD "Device may be offline and command sending timed out"))) ∧
    (∀ r c, resp = some r → r.code = some c → c ≠ 0 → c ≠ 80001 →
      (d.send resp).1 = .error (.remote c
        (r.msg.getD ("Unknown error code: " ++ toString c)))) ∧
    (resp = none → (d.send resp).1 = .error .connectivity) ∧
    (∀ r, resp = some r → (r.code = none ∨ r.code = some 0) →
      r.data.bind RData.result = none →
      (d.send resp).1 = .ok none) := by
  refine ⟨?_, ?_, ?_, ?_⟩
  · rintro r rfl hcode
    rw [DevState.send]
    dsimp only
    rw [if_pos ⟨by simp [ApiResponse.truthy, hcode], hcode⟩]
  · rintro r c rfl hcode hc0 hc80
    have hn1 : ¬(r.truthy = true ∧ r.code = some 80001) := by
      rintro ⟨_, h80⟩
      rw [hcode] at h80
      exact hc80 (by injection h80)
    have hp2 : r.truthy = true ∧ r.code.getD 0 ≠ 0 :=
      ⟨by simp [ApiResponse.truthy, hcode], by rw [hcode]; simpa using hc0⟩
    rw [DevState.send]
    dsimp only
    rw [if_neg hn1, if_pos hp2]
    simp [hcode]
  · rintro rfl
    rfl
  · rintro r rfl hcode hdata
    have hn1 : ¬(r.truthy = true ∧ r.code = some 80001) := by
      rintro ⟨_, h80⟩
      rcases hcode with h | h <;> rw [h] at h80 <;> simp at h80
    have hn2 : ¬(r.truthy = true ∧ r.code.getD 0 ≠ 0) := by
      rintro ⟨_, hne⟩
      rcases hcode with h | h <;> rw [h] at hne <;> simp at hne
    rw [DevState.send]
    dsimp only
    rw [if_neg hn1, if_neg hn2]
    cases hd : r.data with
    | none => rfl
    | some rd =>
      obtain ⟨res⟩ := rd
      have hres : res = none := by
        rw [hd] at hdata
        simpa using hdata
      subst hres
      rfl

/-- Witness for C3 at four concrete responses, one per class. -/
theorem DevState.send_classification_witness :
    ((DevState.init "d").send (some ⟨some 80001, none, none⟩)).1 =
        .error (.timeout "Device may be offline and command sending timed out") ∧
      ((DevState.init "d").send (some ⟨some 100, some "busy", none⟩)).1 =
        .error (.remote 100 "busy") ∧
      ((DevState.init "d").send none).1 = .error .connectivity ∧
      ((DevState.init "d").send (some ⟨some 0, none, none⟩)).1 = .ok none := by
  refine ⟨?_, ?_, ?_, ?_⟩
  · exact ((DevState.init "d").send_classification
      (some ⟨some 80001, none, none⟩)).1 ⟨some 80001, none, none⟩ rfl rfl
  · exact ((DevState.init "d").send_classification
      (some ⟨some 100, some "busy", none⟩)).2.1 ⟨some 100, some "busy", none⟩ 100
      rfl rfl (by decide) (by decide)
  · exact ((DevState.init "d").send_classification none).2.2.1 rfl
  · exact ((DevState.init "d").send_classification
      (some ⟨some 0, none, none⟩)).2.2.2 ⟨some 0, none, none⟩ rfl (Or.inr rfl) rfl

theorem refreshCreds_reachable (d : DevState) :
    (d.refreshCreds).2.device_reachable = d.device_reachable := by
  rw [DevState.refreshCreds]; split <;> rfl

theorem cloudConnect_reachable (d : DevState) (ok : Bool) (nk : Option Int) :
    (d.cloudConnect ok nk).device_reachable = d.device_reachable := by
  rw [DevState.cloudConnect]; split <;> rfl

theorem reauthOnDisconnect_reachable (d : DevState) (rc : Int) (ok : Bool)
    (nk : Option Int) :
    (d.reauthOnDisconnect rc ok nk).device_reachable = d.device_reachable := by
  rw [DevState.reauthOnDisconnect]
  split_ifs
  · rw [refreshCreds_reachable]
  · rw [refreshCreds_reachable, cloudConnect_reachable]
  · rfl

theorem reconnectPhase_reachable (d : DevState) :
    (d.reconnectPhase).device_reachable = d.device_reachable := by
  rw [DevState.reconnectPhase]
  dsimp only
  split_ifs <;> rfl

theorem ensureCloud_reachable (d : DevState) (ok : Bool) (nk : Option Int) :
    (d.ensureCloud ok nk).device_reachable = d.device_reachable := by
  rw [DevState.ensureCloud]
  split_ifs <;> simp [cloudConnect_reachable]

theorem reconnectExisting_reachable (d : DevState) (rr : Bool) :
    (d.reconnectExisting rr).device_reachable = d.device_reachable := by
  rw [DevState.reconnectExisting]
  dsimp only
  split_ifs <;> simp [refreshCreds_reachable]

theorem createClient_reachable (d : DevState) (hv cr : Bool) :
    (d.createClient hv cr).2.device_reachable = d.device_reachable := by
  rw [DevState.createClient]
  dsimp only
  split_ifs <;> simp [refreshCreds_reachable]

/-- Claim C10 (implicit invariant): `device_reachable` starts true; `send`
drives it false exactly on a vendor-code-80001 response and true on every
zero-code response (remote-error responses and missing responses leave it
unchanged); every received MQTT message drives it true (the state the
message callback observes); and every other modelled operation of the
device - the connect/disconnect/timer callbacks, credential refresh,
`connect` and `disconnect` - leaves the flag unchanged. -/
theorem DevState.device_reachable_policy :
    (∀ did, (DevState.init did).device_reachable = true) ∧
    (∀ (d : DevState) (r : ApiResponse), ((d.send (some r)).2).device_reachable =
      (if r.truthy = true ∧ r.code = some 80001 then false
       else if r.truthy = true ∧ r.code.getD 0 ≠ 0 then d.device_reachable
       else true)) ∧
    (∀ d : DevState, ((d.send none).2).device_reachable = d.device_reachable) ∧
    (∀ (d : DevState) (wf hd : Bool),
      ((d.onMqttMessage wf hd).1).device_reachable = true) ∧
    (∀ (d : DevState) (rc : Int) (ok : Bool) (nk : Option Int),
      ((d.onMqttDisconnect rc ok nk).1).device_reachable = d.device_reachable) ∧
    (∀ (d : DevState) (rc : Int),
      ((d.onMqttConnect rc).1).device_reachable = d.device_reachable) ∧
    (∀ (d : DevState) (b : Bool),
      (d.mqttReconnectTimerTask b).device_reachable = d.device_reachable) ∧
    (∀ d : DevState, (d.refreshCreds).2.device_reachable = d.device_reachable) ∧
    (∀ d : DevState, (d.disconnectDev).device_reachable = d.device_reachable) ∧
    (∀ (d : DevState) (mcb ccb dcb cloudOk : Bool) (newKey : Option Int)
      (infoOk : Bool) (u di mo ho : String) (hv cr rr : Bool),
      ((d.connectDev mcb ccb dcb cloudOk newKey infoOk u di mo ho hv cr rr).2
        ).device_reachable = d.device_reachable) := by
  refine ⟨fun _ => rfl, ?_, fun d => rfl, ?_, ?_, ?_, ?_,
    refreshCreds_reachable, ?_, ?_⟩
  · intro d r
    rw [DevState.send]
    dsimp only
    split_ifs with h1 h2
    · rfl
    · rfl
    · cases hd : r.data with
      | none => rfl
      | some rd =>
        obtain ⟨res⟩ := rd
        cases res <;> rfl
  · intro d wf hd
    rw [DevState.onMqttMessage]
    dsimp only
    split_ifs <;> rfl
  · intro d rc ok nk
    rw [DevState.onMqttDisconnect]
    dsimp only
    split
    · rfl
    · rw [reconnectPhase_reachable, reauthOnDisconnect_reachable]
  · intro d rc
    rw [DevState.onMqttConnect]
    dsimp only
    split_ifs
    · rfl
    · rfl
    · rw [refreshCreds_reachable]
    · rw [refreshCreds_reachable]
  · intro d b
    rw [DevState.mqttReconnectTimerTask]
    dsimp only
    split_ifs <;> rfl
  · intro d
    rw [DevState.disconnectDev]
    dsimp only
    split <;> rfl
  · intro d mcb ccb dcb cloudOk newKey infoOk u di mo ho hv cr rr
    rw [DevState.connectDev]
    dsimp only
    split_ifs <;>
      simp [DevState.setCallbacks, DevState.applyDeviceInfo, ensureCloud_reachable,
        reconnectExisting_reachable, createClient_reachable]

/-! ## Scheduling property 2:51 (`property/scheduling.py`)

`DndTimeHandler.parse_value` disambiguates the seven payload shapes of
property 2:51 through an ordered predicate chain and dispatches to the
per-variant sub-handlers; `SchedulingPropertyHandler._handle_dnd_time_property`
maintains the five scheduling state fields and emits change/cleared
notifications.  Payloads arrive as dicts; the model covers the six keys the
dispatcher inspects (extra keys never affect it). -/

/-- A dynamically-typed payload value under one of the 2:51 keys. -/
inductive PVal where
  | pInt (n : Int)
  | pList (xs : List Int)
  | pStr (s : String)
  deriving DecidableEq, Repr

/-- Python `int(v)`; `none` models a raised exception. -/
def PVal.intCoerce : PVal → Option Int
  | .pInt n => some n
  | .pStr s => s.toInt?
  | .pList _ => none

/-- Python `bool(v)` (never raises). -/
def PVal.pyBool : PVal → Bool
  | .pInt n => n != 0
  | .pStr s => s ≠ ""
  | .pList xs => !xs.isEmpty

/-- Python `str(v)` (never raises). -/
def PVal.pyStr : PVal → String
  | .pInt n => toString n
  | .pStr s => s
  | .pList xs => toString xs

/-- The 2:51 payload dict restricted to the keys the dispatcher inspects
(`end` is a Lean keyword, hence `end_`). -/
structure Dict51 where
  start : Option PVal
  end_ : Option PVal
  value : Option PVal
  time : Option PVal
  tz : Option PVal
  type : Option PVal
  deriving DecidableEq, Repr

/-- `isinstance(d[k], int)` for a possibly-absent key. -/
def isIntVal : Option PVal → Bool
  | some (.pInt _) => true
  | _ => false

inductive Property51Type where
  | DND_SCHEDULE
  | TIME_SYNC
  | CHARGING_SCHEDULE
  | THIRD_VARIANT
  | FOURTH_VARIANT
  | FIFTH_VARIANT
  | SIXTH_VARIANT
  | UNKNOWN
  deriving DecidableEq, Repr

structure ChargingHandler where
  auto_recharge_percent : Option Int
  resume_percent : Option Int
  enabled : Option Bool
  start_minute : Option Int
  end_minute : Option Int
  deriving DecidableEq, Repr

def ChargingHandler.init : ChargingHandler := ⟨none, none, none, none, none⟩

/-- `ChargingHandler.parse_value`: 6-element array
`[auto%, resume%, separator, enabled, start_min, end_min]`. -/
def ChargingHandler.parse_value (h : ChargingHandler) (value : Dict51) :
    Bool × ChargingHandler :=
  match value.value with
  | some (.pList xs) =>
    if xs.length = 6 then
      (true,
        { auto_recharge_percent := some (xs.getD 0 0)
          resume_percent := some (xs.getD 1 0)
          enabled := some (xs.getD 3 0 != 0)
          start_minute := some (xs.getD 4 0)
          end_minute := some (xs.getD 5 0) })
    else (false, h)
  | _ => (false, h)

structure ThirdVariantHandler where
  value1 : Option Int
  value2 : Option Int
  value3 : Option Int
  deriving DecidableEq, Repr

def ThirdVariantHandler.init : ThirdVariantHandler := ⟨none, none, none⟩

/-- `ThirdVariantHandler.parse_value`: 3-element array. -/
def ThirdVariantHandler.parse_value (h : ThirdVariantHandler) (value : Dict51) :
    Bool × ThirdVariantHandler :=
  match value.value with
  | some (.pList xs) =>
    if xs.length = 3 then
      (true,
        { value1 := some (xs.getD 0 0)
          value2 := some (xs.getD 1 0)
          value3 := some (xs.getD 2 0) })
    else (false, h)
  | _ => (false, h)

structure FourthVariantHandler where
  value : Option Int
  deriving DecidableEq, Repr

def FourthVariantHandler.init : FourthVariantHandler := ⟨none⟩

/-- `FourthVariantHandler.parse_value`: single integer under `value`. -/
def FourthVariantHandler.parse_value (h : FourthVariantHandler) (value : Dict51) :
    Bool × FourthVariantHandler :=
  match value.value with
  | some (.pInt n) => (true, { value := some n })
  | some _ => (false, h)
  | none => (false, h)

structure FifthVariantHandler where
  value1 : Option Int
  value2 : Option Int
  value3 : Option Int
  value4 : Option Int
  deriving DecidableEq, Repr

def FifthVariantHandler.init : FifthVariantHandler := ⟨none, none, none, none⟩

/-- `FifthVariantHandler.parse_value`: 4-element array. -/
def FifthVariantHandler.parse_value (h : FifthVariantHandler) (value : Dict51) :
    Bool × FifthVariantHandler :=
  match value.value with
  | some (.pList xs) =>
    if xs.length = 4 then
      (true,
        { value1 := some (xs.getD 0 0)
          value2 := some (xs.getD 1 0)
          value3 := some (xs.getD 2 0)
          value4 := some (xs.getD 3 0) })
    else (false, h)
  | _ => (false, h)

structure SixthVariantHandler where
  type_value : Option Int
  deriving DecidableEq, Repr

def SixthVariantHandler.init : SixthVariantHandler := ⟨none⟩

/-- `SixthVariantHandler.parse_value`: single integer under `type`. -/
def SixthVariantHandler.parse_value (h : SixthVariantHandler) (value : Dict51) :
    Bool × SixthVariantHandler :=
  match value.type with
  | some (.pInt n) => (true, { type_value := some n })
  | some _ => (false, h)
  | none => (false, h)

structure DndTimeHandler where
  dnd_start_minute : Option Int
  dnd_end_minute : Option Int
  dnd_enabled : Option Bool
  sync_timestamp : Option String
  sync_timezone : Option String
  payload_type : Property51Type
  charging_handler : ChargingHandler
  third_variant_handler : ThirdVariantHandler
  fourth_variant_handler : FourthVariantHandler
  fifth_variant_handler : FifthVariantHandler
  sixth_variant_handler : SixthVariantHandler
  deriving DecidableEq, Repr

def DndTimeHandler.init : DndTimeHandler :=
  { dnd_start_minute := none
    dnd_end_minute := none
    dnd_enabled := none
    sync_timestamp := none
    sync_timezone := none
    payload_type := .UNKNOWN
    charging_handler := ChargingHandler.init
    third_variant_handler := ThirdVariantHandler.init
    fourth_variant_handler := FourthVariantHandler.init
    fifth_variant_handler := FifthVariantHandler.init
    sixth_variant_handler := SixthVariantHandler.init }

/-- `_parse_dnd_schedule`: assign start, end, enabled in order (a coercion
raise keeps earlier assignments) and clear the time-sync fields. -/
def DndTimeHandler.parse_dnd_schedule (h : DndTimeHandler) (data : Dict51) :
    Bool × DndTimeHandler :=
  match data.start with
  | none => (false, h)
  | some sv =>
    match sv.intCoerce with
    | none => (false, h)
    | some s =>
      let h1 := { h with dnd_start_minute := some s }
      match data.end_ with
      | none => (false, h1)
      | some ev =>
        match ev.intCoerce with
        | none => (false, h1)
        | some e =>
          let h2 := { h1 with dnd_end_minute := some e }
          match data.value with
          | none => (false, h2)
          | some vv =>
            (true, { h2 with
              dnd_enabled := some vv.pyBool
              sync_timestamp := none
              sync_timezone := none })

/-- `_parse_time_sync`: store timestamp and timezone as strings and clear
the DND fields. -/
def DndTimeHandler.parse_time_sync (h : DndTimeHandler) (data : Dict51) :
    Bool × DndTimeHandler :=
  match data.time with
  | none => (false, h)
  | some tv =>
    let h1 := { h with sync_timestamp := some tv.pyStr }
    match data.tz with
    | none => (false, h1)
    | some zv =>
      (true, { h1 with
        sync_timezone := some zv.pyStr
        dnd_start_minute := none
        dnd_end_minute := none
        dnd_enabled := none })

/-- `DndTimeHandler.parse_value`: the ordered shape-predicate chain of
property 2:51 - `{start,end,value:int}`, then `{time,tz}`, then `value`
lists of length 6 / 4 / 3, then `{value:int}`, then `{type:int}`; the
first match wins, anything else is UNKNOWN. -/
def DndTimeHandler.parse_value (h : DndTimeHandler) (parsed_data : Dict51) :
    Bool × DndTimeHandler :=
  if parsed_data.start.isSome && parsed_data.end_.isSome && isIntVal parsed_data.value then
    DndTimeHandler.parse_dnd_schedule { h with payload_type := .DND_SCHEDULE } parsed_data
  else if parsed_data.time.isSome && parsed_data.tz.isSome then
    DndTimeHandler.parse_time_sync { h with payload_type := .TIME_SYNC } parsed_data
  else
    match parsed_data.value with
    | some (.pList xs) =>
      if xs.length = 6 then
        let h1 := { h with payload_type := .CHARGING_SCHEDULE }
        let r := h1.charging_handler.parse_value parsed_data
        (r.1, { h1 with charging_handler := r.2 })
      else if xs.length = 4 then
        let h1 := { h with payload_type := .FIFTH_VARIANT }
        let r := h1.fifth_variant_handler.parse_value parsed_data
        (r.1, { h1 with fifth_variant_handler := r.2 })
      else if xs.length = 3 then
        let h1 := { h with payload_type := .THIRD_VARIANT }
        let r := h1.third_variant_handler.parse_value parsed_data
        (r.1, { h1 with third_variant_handler := r.2 })
      else (false, { h with payload_type := .UNKNOWN })
    | some (.pInt _) =>
      let h1 := { h with payload_type := .FOURTH_VARIANT }
      let r := h1.fourth_variant_handler.parse_value parsed_data
      (r.1, { h1 with fourth_variant_handler := r.2 })
    | _ =>
      match parsed_data.type with
      | some (.pInt _) =>
        let h1 := { h with payload_type := .SIXTH_VARIANT }
        let r := h1.sixth_variant_handler.parse_value parsed_data
        (r.1, { h1 with sixth_variant_handler := r.2 })
      | _ => (false, { h with payload_type := .UNKNOWN })

/-- Values handed to `notify_callback`: Python `None`, scalars, and the
per-variant notification dicts (fields in source order). -/
inductive NVal where
  | none
  | ofBool (b : Bool)
  | ofInt (n : Int)
  | ofStr (s : String)
  | dndData (start_minute end_minute : Option Int) (enabled : Option Bool)
  | timeSyncData (timestamp timezone : Option String)
  | chargingData (auto_recharge_percent resume_percent : Option Int)
      (enabled : Option Bool) (start_minute end_minute : Option Int)
  | thirdData (value1 value2 value3 : Option Int)
  | fourthData (value : Option Int)
  | fifthData (value1 value2 value3 value4 : Option Int)
  | sixthData (type_value : Option Int)
  deriving DecidableEq, Repr

def NVal.ofOptBool : Option Bool → NVal
  | Option.none => .none
  | some b => .ofBool b

def NVal.ofOptInt : Option Int → NVal
  | Option.none => .none
  | some n => .ofInt n

def NVal.ofOptStr : Option String → NVal
  | Option.none => .none
  | some s => .ofStr s

namespace DndTimeHandler

/-- `get_dnd_notification_data`. -/
def get_dnd_notification_data (h : DndTimeHandler) : Option NVal :=
  if h.payload_type ≠ .DND_SCHEDULE then none
  else some (.dndData h.dnd_start_minute h.dnd_end_minute h.dnd_enabled)

/-- `get_time_sync_notification_data`. -/
def get_time_sync_notification_data (h : DndTimeHandler) : Option NVal :=
  if h.payload_type ≠ .TIME_SYNC then none
  else some (.timeSyncData h.sync_timestamp h.sync_timezone)

/-- `get_charging_notification_data`. -/
def get_charging_notification_data (h : DndTimeHandler) : Option NVal :=
  if h.payload_type ≠ .CHARGING_SCHEDULE then none
  else some (.chargingData h.charging_handler.auto_recharge_percent
    h.charging_handler.resume_percent h.charging_handler.enabled
    h.charging_handler.start_minute h.charging_handler.end_minute)

/-- `get_third_variant_notification_data`. -/
def get_third_variant_notification_data (h : DndTimeHandler) : Option NVal :=
  if h.payload_type ≠ .THIRD_VARIANT then none
  else some (.thirdData h.third_variant_handler.value1 h.third_variant_handler.value2
    h.third_variant_handler.value3)

/-- `get_fourth_variant_notification_data`. -/
def get_fourth_variant_notification_data (h : DndTimeHandler) : Option NVal :=
  if h.payload_type ≠ .FOURTH_VARIANT then none
  else some (.fourthData h.fourth_variant_handler.value)

/-- `get_fifth_variant_notification_data`. -/
def get_fifth_variant_notification_data (h : DndTimeHandler) : Option NVal :=
  if h.payload_type ≠ .FIFTH_VARIANT then none
  else some (.fifthData h.fifth_variant_handler.value1 h.fifth_variant_handler.value2
    h.fifth_variant_handler.value3 h.fifth_variant_handler.value4)

/-- `get_sixth_variant_notification_data`. -/
def get_sixth_variant_notification_data (h : DndTimeHandler) : Option NVal :=
  if h.payload_type ≠ .SIXTH_VARIANT then none
  else some (.sixthData h.sixth_variant_handler.type_value)

end DndTimeHandler

/-- The scheduling state fields of `SchedulingPropertyHandler` together with
its `DndTimeHandler` (the 2:50 task and 2:52 summary handlers live on other
property ids and do not interact with 2:51). -/
structure SchedulingPropertyHandler where
  dnd_time_handler : DndTimeHandler
  dnd_enabled : Option Bool
  dnd_start_time : Option Int
  dnd_end_time : Option Int
  timezone : Option String
  device_time : Option String
  deriving DecidableEq, Repr

namespace SchedulingPropertyHandler

def init : SchedulingPropertyHandler :=
  ⟨DndTimeHandler.init, none, none, none, none, none⟩

/-- The `old value is not None -> notify(name, None)` cleared-notification
block shared by the charging/third/fourth/fifth/sixth variant branches. -/
def clearedNotifs (old_dnd_enabled : Option Bool) (old_dnd_start_time : Option Int)
    (old_dnd_end_time : Option Int) (old_timezone old_device_time : Option String) :
    List (String × NVal) :=
  (if old_dnd_enabled ≠ none then [("dnd_enabled", NVal.none)] else []) ++
  (if old_dnd_start_time ≠ none then [("dnd_start_time", NVal.none)] else []) ++
  (if old_dnd_end_time ≠ none then [("dnd_end_time", NVal.none)] else []) ++
  (if old_timezone ≠ none then [("timezone", NVal.none)] else []) ++
  (if old_device_time ≠ none then [("device_time", NVal.none)] else [])

/-- `_handle_dnd_time_property`: parse the 2:51 payload, update the five
scheduling state fields per variant, emit per-field change/cleared
notifications and then the variant-level event.  Returns success, the new
state and the emitted notifications in order. -/
def handle_dnd_time_property (s : SchedulingPropertyHandler) (value : Dict51) :
    Bool × SchedulingPropertyHandler × List (String × NVal) :=
  let old_dnd_enabled := s.dnd_enabled
  let old_dnd_start_time := s.dnd_start_time
  let old_dnd_end_time := s.dnd_end_time
  let old_timezone := s.timezone
  let old_device_time := s.device_time
  let r := s.dnd_time_handler.parse_value value
  let handler := r.2
  if r.1 then
    if handler.payload_type = .DND_SCHEDULE then
      let s1 : SchedulingPropertyHandler :=
        { dnd_time_handler := handler
          dnd_enabled := handler.dnd_enabled
          dnd_start_time := handler.dnd_start_minute
          dnd_end_time := handler.dnd_end_minute
          timezone := handler.sync_timezone
          device_time := handler.sync_timestamp }
      let ns :=
        (if old_dnd_enabled ≠ s1.dnd_enabled then
          [("dnd_enabled", NVal.ofOptBool s1.dnd_enabled)] else []) ++
        (if old_dnd_start_time ≠ s1.dnd_start_time then
          [("dnd_start_time", NVal.ofOptInt s1.dnd_start_time)] else []) ++
        (if old_dnd_end_time ≠ s1.dnd_end_time then
          [("dnd_end_time", NVal.ofOptInt s1.dnd_end_time)] else []) ++
        (if old_timezone ≠ s1.timezone then
          [("timezone", NVal.ofOptStr s1.timezone)] else []) ++
        (if old_device_time ≠ s1.device_time then
          [("device_time", NVal.ofOptStr s1.device_time)] else []) ++
        (match handler.get_dnd_notification_data with
          | some v => [("scheduling_dnd", v)]
          | none => [])
      (true, s1, ns)
    else if handler.payload_type = .TIME_SYNC then
      let s1 : SchedulingPropertyHandler :=
        { dnd_time_handler := handler
          dnd_enabled := handler.dnd_enabled
          dnd_start_time := handler.dnd_start_minute
          dnd_end_time := handler.dnd_end_minute
          timezone := handler.sync_timezone
          device_time := handler.sync_timestamp }
      let ns :=
        (if old_timezone ≠ s1.timezone then
          [("timezone", NVal.ofOptStr s1.timezone)] else []) ++
        (if old_device_time ≠ s1.device_time then
          [("device_time", NVal.ofOptStr s1.device_time)] else []) ++
        (if old_dnd_enabled ≠ s1.dnd_enabled then
          [("dnd_enabled", NVal.ofOptBool s1.dnd_enabled)] else []) ++
        (if old_dnd_start_time ≠ s1.dnd_start_time then
          [("dnd_start_time", NVal.ofOptInt s1.dnd_start_time)] else []) ++
        (if old_dnd_end_time ≠ s1.dnd_end_time then
          [("dnd_end_time", NVal.ofOptInt s1.dnd_end_time)] else []) ++
        (match handler.get_time_sync_notification_data with
          | some v => [("scheduling_time_sync", v)]
          | none => [])
      (true, s1, ns)
    else
      let s1 : SchedulingPropertyHandler :=
        { dnd_time_handler := handler
          dnd_enabled := none
          dnd_start_time := none
          dnd_end_time := none
          timezone := none
          device_time := none }
      let cleared := clearedNotifs old_dnd_enabled old_dnd_start_time
        old_dnd_end_time old_timezone old_device_time
      if handler.payload_type = .CHARGING_SCHEDULE then
        (true, s1, cleared ++ (match handler.get_charging_notification_data with
          | some v => [("scheduling_charging", v)]
          | none => []))
      else if handler.payload_type = .THIRD_VARIANT then
        (true, s1, cleared ++ (match handler.get_third_variant_notification_data with
          | some v => [("scheduling_third_variant", v)]
          | none => []))
      else if handler.payload_type = .FOURTH_VARIANT then
        (true, s1, cleared ++ (match handler.get_fourth_variant_notification_data with
          | some v => [("scheduling_fourth_variant", v)]
          | none => []))
      else if handler.payload_type = .FIFTH_VARIANT then
        (true, s1, cleared ++ (match handler.get_fifth_variant_notification_data with
          | some v => [("scheduling_fifth_variant", v)]
          | none => []))
      else if handler.payload_type = .SIXTH_VARIANT then
        (true, s1, cleared ++ (match handler.get_sixth_variant_notification_data with
          | some v => [("scheduling_sixth_variant", v)]
          | none => []))
      else (true, { s with dnd_time_handler := handler }, [])
  else (false, { s with dnd_time_handler := handler }, [])

end SchedulingPropertyHandler

/-- Payload `{'start': a, 'end': b, 'value': v}` with integer `v`. -/
def mkDnd (a b v : Int) : Dict51 :=
  ⟨some (.pInt a), some (.pInt b), some (.pInt v), none, none, none⟩

/-- Payload `{'time': t, 'tz': z}`. -/
def mkTimeSync (t z : PVal) : Dict51 := ⟨none, none, none, some t, some z, none⟩

/-- Payload `{'value': xs}` with a list value. -/
def mkValueList (xs : List Int) : Dict51 := ⟨none, none, some (.pList xs), none, none, none⟩

/-- Payload `{'value': v}` with integer `v` (and no start/end keys). -/
def mkValueInt (v : Int) : Dict51 := ⟨none, none, some (.pInt v), none, none, none⟩

/-- Payload `{'type': n}` with integer `n`. -/
def mkTypeInt (n : Int) : Dict51 := ⟨none, none, none, none, none, some (.pInt n)⟩

/-- Claim C1 (amended): each of the seven payload shapes
`{start,end,value:int}`, `{time,tz}`, `{value:[6 ints]}`, `{value:[4 ints]}`,
`{value:[3 ints]}`, `{value:int}` and `{type:int}` is matched by the ordered
predicate chain, the first matching predicate wins and classifies the
payload as exactly one variant, and each successful decode emits exactly one
variant-level event.  Decoding any variant clears the DND-schedule and
time-sync scheduling state fields belonging to the other variants (the
non-DND/time branches clear all five), with an explicit cleared notification
(`name, None`) for every such field that changes to absence - the
conditionals in the emitted lists below - while the decoded fields of the
charging and third/fourth/fifth/sixth variant sub-handlers are retained, not
cleared, when another variant is decoded (each equation only rewrites the
sub-handler of its own variant). -/
theorem SchedulingPropertyHandler.property_51_dispatch
    (s : SchedulingPropertyHandler) (a b v : Int) (t z : PVal)
    (x0 x1 x2 x3 x4 x5 y0 y1 y2 y3 w0 w1 w2 u n : Int) :
    s.handle_dnd_time_property (mkDnd a b v) =
      (true,
        { dnd_time_handler := { s.dnd_time_handler with
            payload_type := .DND_SCHEDULE
            dnd_start_minute := some a
            dnd_end_minute := some b
            dnd_enabled := some (v != 0)
            sync_timestamp := none
            sync_timezone := none }
          dnd_enabled := some (v != 0)
          dnd_start_time := some a
          dnd_end_time := some b
          timezone := none
          device_time := none },
        (if s.dnd_enabled ≠ some (v != 0) then
          [("dnd_enabled", NVal.ofBool (v != 0))] else []) ++
        (if s.dnd_start_time ≠ some a then
          [("dnd_start_time", NVal.ofInt a)] else []) ++
        (if s.dnd_end_time ≠ some b then
          [("dnd_end_time", NVal.ofInt b)] else []) ++
        (if s.timezone ≠ none then [("timezone", NVal.none)] else []) ++
        (if s.device_time ≠ none then [("device_time", NVal.none)] else []) ++
        [("scheduling_dnd", NVal.dndData (some a) (some b) (some (v != 0)))]) ∧
    s.handle_dnd_time_property (mkTimeSync t z) =
      (true,
        { dnd_time_handler := { s.dnd_time_handler with
            payload_type := .TIME_SYNC
            sync_timestamp := some t.pyStr
            sync_timezone := some z.pyStr
            dnd_start_minute := none
            dnd_end_minute := none
            dnd_enabled := none }
          dnd_enabled := none
          dnd_start_time := none
          dnd_end_time := none
          timezone := some z.pyStr
          device_time := some t.pyStr },
        (if s.timezone ≠ some z.pyStr then
          [("timezone", NVal.ofStr z.pyStr)] else []) ++
        (if s.device_time ≠ some t.pyStr then
          [("device_time", NVal.ofStr t.pyStr)] else []) ++
        (if s.dnd_enabled ≠ none then [("dnd_enabled", NVal.none)] else []) ++
        (if s.dnd_start_time ≠ none then [("dnd_start_time", NVal.none)] else []) ++
        (if s.dnd_end_time ≠ none then [("dnd_end_time", NVal.none)] else []) ++
        [("scheduling_time_sync", NVal.timeSyncData (some t.pyStr) (some z.pyStr))]) ∧
    s.handle_dnd_time_property (mkValueList [x0, x1, x2, x3, x4, x5]) =
      (true,
        { dnd_time_handler := { s.dnd_time_handler with
            payload_type := .CHARGING_SCHEDULE
            charging_handler :=
              ⟨some x0, some x1, some (x3 != 0), some x4, some x5⟩ }
          dnd_enabled := none
          dnd_start_time := none
          dnd_end_time := none
          timezone := none
          device_time := none },
        SchedulingPropertyHandler.clearedNotifs s.dnd_enabled s.dnd_start_time
          s.dnd_end_time s.timezone s.device_time ++
        [("scheduling_charging",
          NVal.chargingData (some x0) (some x1) (some (x3 != 0)) (some x4) (some x5))]) ∧
    s.handle_dnd_time_property (mkValueList [y0, y1, y2, y3]) =
      (true,
        { dnd_time_handler := { s.dnd_time_handler with
            payload_type := .FIFTH_VARIANT
            fifth_variant_handler := ⟨some y0, some y1, some y2, some y3⟩ }
          dnd_enabled := none
          dnd_start_time := none
          dnd_end_time := none
          timezone := none
          device_time := none },
        SchedulingPropertyHandler.clearedNotifs s.dnd_enabled s.dnd_start_time
          s.dnd_end_time s.timezone s.device_time ++
        [("scheduling_fifth_variant",
          NVal.fifthData (some y0) (some y1) (some y2) (some y3))]) ∧
    s.handle_dnd_time_property (mkValueList [w0, w1, w2]) =
      (true,
        { dnd_time_handler := { s.dnd_time_handler with
            payload_type := .THIRD_VARIANT
            third_variant_handler := ⟨some w0, some w1, some w2⟩ }
          dnd_enabled := none
          dnd_start_time := none
          dnd_end_time := none
          timezone := none
          device_time := none },
        SchedulingPropertyHandler.clearedNotifs s.dnd_enabled s.dnd_start_time
          s.dnd_end_time s.timezone s.device_time ++
        [("scheduling_third_variant", NVal.thirdData (some w0) (some w1) (some w2))]) ∧
    s.handle_dnd_time_property (mkValueInt u) =
      (true,
        { dnd_time_handler := { s.dnd_time_handler with
            payload_type := .FOURTH_VARIANT
            fourth_variant_handler := ⟨some u⟩ }
          dnd_enabled := none
          dnd_start_time := none
          dnd_end_time := none
          timezone := none
          device_time := none },
        SchedulingPropertyHandler.clearedNotifs s.dnd_enabled s.dnd_start_time
          s.dnd_end_time s.timezone s.device_time ++
        [("scheduling_fourth_variant", NVal.fourthData (some u))]) ∧
    s.handle_dnd_time_property (mkTypeInt n) =
      (true,
        { dnd_time_handler := { s.dnd_time_handler with
            payload_type := .SIXTH_VARIANT
            sixth_variant_handler := ⟨some n⟩ }
          dnd_enabled := none
          dnd_start_time := none
          dnd_end_time := none
          timezone := none
          device_time := none },
        SchedulingPropertyHandler.clearedNotifs s.dnd_enabled s.dnd_start_time
          s.dnd_end_time s.timezone s.device_time ++
        [("scheduling_sixth_variant", NVal.sixthData (some n))]) :=
  ⟨rfl, rfl, rfl, rfl, rfl, rfl, rfl⟩

/-- The spec's charging-schedule payload `{'value': [80, 20, 0, 1, 60, 120]}`. -/
def c1ChargingPayload : Dict51 := mkValueList [80, 20, 0, 1, 60, 120]

/-- A DND-schedule payload `{'start': 600, 'end': 1200, 'value': 1}`. -/
def c1DndPayload : Dict51 := mkDnd 600 1200 1

/-- Counterexample to claim C1 as frozen: decode a charging-schedule payload
and then a DND-schedule payload on the same handler.  Both decodes succeed,
yet after the DND decode the previously decoded charging-variant fields are
still present (`auto_recharge_percent = 80` instead of cleared), and the
DND step's notifications contain no cleared notification for any
charging-variant field - so the previously decoded state of the other six
variants is not cleared when one variant is decoded. -/
theorem SchedulingPropertyHandler.charging_state_survives_dnd :
    (SchedulingPropertyHandler.init.handle_dnd_time_property c1ChargingPayload).1 =
        true ∧
      ((SchedulingPropertyHandler.init.handle_dnd_time_property
        c1ChargingPayload).2.1.handle_dnd_time_property c1DndPayload).1 = true ∧
      ((SchedulingPropertyHandler.init.handle_dnd_time_property
        c1ChargingPayload).2.1.handle_dnd_time_property
          c1DndPayload).2.1.dnd_time_handler.charging_handler.auto_recharge_percent =
        some 80 ∧
      ((SchedulingPropertyHandler.init.handle_dnd_time_property
        c1ChargingPayload).2.1.handle_dnd_time_property c1DndPayload).2.2 =
        [("dnd_enabled", NVal.ofBool true), ("dnd_start_time", NVal.ofInt 600),
          ("dnd_end_time", NVal.ofInt 1200),
          ("scheduling_dnd", NVal.dndData (some 600) (some 1200) (some true))] := by
  decide

end DreameMower
